import Mathlib

/-!
Verification development for the logiscareers candidate-job scoring engine.

The Python sources are shallowly embedded: floats become `ℚ`, Python `int`
scores become `ℤ`, dictionaries with known key sets become structures, and
`None`/empty-string falsiness is modelled explicitly.  `round` is Python's
round-half-to-even, `int()` truncates toward zero.

The skill taxonomy configuration file (`skills_taxonomy.yaml`) is not part of
the sources, so the `SkillMatcher` is parameterised by a `SkillTaxonomy`
record holding the loaded configuration (synonym map, category map,
relationship groups, exclusion list, match-type weights, matching flags) and
by the embedding model's cosine-similarity function `sim`.
-/

/-- Python `round` to an integer: round half to even ("banker's rounding"). -/
def pyRound (x : ℚ) : ℤ :=
  if x - ⌊x⌋ < 1/2 then ⌊x⌋
  else if 1/2 < x - ⌊x⌋ then ⌊x⌋ + 1
  else if ⌊x⌋ % 2 = 0 then ⌊x⌋ else ⌊x⌋ + 1

theorem pyRound_ge (x : ℚ) : x - 1/2 ≤ (pyRound x : ℚ) := by
  unfold pyRound
  have h1 := Int.floor_le x
  have h2 := Int.lt_floor_add_one x
  split_ifs <;> push_cast <;> linarith

theorem pyRound_le (x : ℚ) : (pyRound x : ℚ) ≤ x + 1/2 := by
  unfold pyRound
  have h1 := Int.floor_le x
  have h2 := Int.lt_floor_add_one x
  split_ifs <;> push_cast <;> linarith

theorem pyRound_nonneg (x : ℚ) (hx : 0 ≤ x) : 0 ≤ pyRound x := by
  unfold pyRound
  have h1 : (0 : ℤ) ≤ ⌊x⌋ := Int.floor_nonneg.mpr hx
  split_ifs <;> omega

theorem pyRound_le_of_le (x : ℚ) (n : ℤ) (h : x ≤ n) : pyRound x ≤ n := by
  have h1 := pyRound_le x
  have : (pyRound x : ℚ) < n + 1 := by linarith
  exact_mod_cast Int.lt_add_one_iff.mp (by exact_mod_cast this)

theorem pyRound_ge_of_ge (x : ℚ) (n : ℤ) (h : (n : ℚ) ≤ x) : n ≤ pyRound x := by
  have h1 := pyRound_ge x
  have : (n : ℚ) - 1 < (pyRound x : ℚ) := by linarith
  have : (n : ℚ) < (pyRound x : ℚ) + 1 := by linarith
  exact_mod_cast Int.lt_add_one_iff.mp (by exact_mod_cast this)

/-- Python `round(x, 1)`. -/
def round1 (x : ℚ) : ℚ := (pyRound (10 * x) : ℚ) / 10

/-- Python `round(x, 2)`. -/
def round2 (x : ℚ) : ℚ := (pyRound (100 * x) : ℚ) / 100

theorem round1_ge (x : ℚ) : x - 1/20 ≤ round1 x := by
  unfold round1
  have := pyRound_ge (10 * x)
  linarith

theorem round1_le (x : ℚ) : round1 x ≤ x + 1/20 := by
  unfold round1
  have := pyRound_le (10 * x)
  linarith

theorem round1_nonneg (x : ℚ) (hx : 0 ≤ x) : 0 ≤ round1 x := by
  unfold round1
  have := pyRound_nonneg (10 * x) (by linarith)
  positivity

theorem round1_le_of_le (x : ℚ) (n : ℤ) (h : x ≤ n) : round1 x ≤ n := by
  unfold round1
  have h10 : (10 : ℚ) * x ≤ ((10 * n : ℤ) : ℚ) := by push_cast; linarith
  have := pyRound_le_of_le (10 * x) (10 * n) h10
  have hc : (pyRound (10 * x) : ℚ) ≤ ((10 * n : ℤ) : ℚ) := by exact_mod_cast this
  push_cast at hc
  linarith

theorem round2_nonneg (x : ℚ) (hx : 0 ≤ x) : 0 ≤ round2 x := by
  unfold round2
  have := pyRound_nonneg (100 * x) (by linarith)
  positivity

theorem round2_le_of_le_one (x : ℚ) (h : x ≤ 1) : round2 x ≤ 1 := by
  unfold round2
  have h100 : (100 : ℚ) * x ≤ ((100 : ℤ) : ℚ) := by push_cast; linarith
  have := pyRound_le_of_le (100 * x) 100 h100
  have hc : (pyRound (100 * x) : ℚ) ≤ (100 : ℚ) := by exact_mod_cast this
  linarith

/-- Python `int()` applied to a float: truncation toward zero. -/
def pyInt (x : ℚ) : ℤ := if 0 ≤ x then ⌊x⌋ else -⌊-x⌋

theorem pyInt_nonneg (x : ℚ) (hx : 0 ≤ x) : 0 ≤ pyInt x := by
  unfold pyInt
  rw [if_pos hx]
  exact Int.floor_nonneg.mpr hx

theorem pyInt_le (x : ℚ) (hx : 0 ≤ x) : (pyInt x : ℚ) ≤ x := by
  unfold pyInt
  rw [if_pos hx]
  exact Int.floor_le x

theorem pyInt_le_of_le (x : ℚ) (n : ℤ) (hx : 0 ≤ x) (h : x ≤ n) : pyInt x ≤ n := by
  have h1 := pyInt_le x hx
  have h2 : (pyInt x : ℚ) ≤ (n : ℚ) := le_trans h1 h
  exact_mod_cast h2

/-! String helpers mirroring the Python string operations used by the engine. -/

/-- Python `str.lower()` (ASCII). -/
def strLower (s : String) : String := ⟨s.data.map Char.toLower⟩

def isWsChar (c : Char) : Bool := c.isWhitespace

/-- Python `str.strip()`. -/
def pyStrip (s : String) : String :=
  ⟨((s.data.dropWhile isWsChar).reverse.dropWhile isWsChar).reverse⟩

/-- `subAt pat hay`: `pat` occurs at the start of `hay`. -/
def subAt : List Char → List Char → Bool
  | [], _ => true
  | _ :: _, [] => false
  | p :: ps, h :: hs => p == h && subAt ps hs

/-- `hasSub hay pat`: `pat` occurs somewhere inside `hay`. -/
def hasSub : List Char → List Char → Bool
  | [], pat => pat.isEmpty
  | h :: t, pat => subAt pat (h :: t) || hasSub t pat

/-- Python `pat in hay` on strings. -/
def strIn (pat hay : String) : Bool := hasSub hay.data pat.data

/-- Helper for Python `str.split()` (split on whitespace, dropping empties). -/
def splitWsGo : List Char → List Char → List (List Char)
  | [], acc => if acc.isEmpty then [] else [acc.reverse]
  | c :: rest, acc =>
    if isWsChar c then
      (if acc.isEmpty then splitWsGo rest [] else acc.reverse :: splitWsGo rest [])
    else splitWsGo rest (c :: acc)

/-- Python `str.split()` with no argument. -/
def pySplit (s : String) : List String := (splitWsGo s.data []).map (fun l => ⟨l⟩)

/-- Python truthy-or on strings: `a or b`. -/
def pyOrS (a b : String) : String := if a = "" then b else a

/-- Python `\w` character class (ASCII fragment used by the sources). -/
def isWordChar (c : Char) : Bool := c.isAlphanum || c == '_'

/-! ## Skill Matcher (`logis_ai_candidate_engine/ml/skill_matcher.py`)

The taxonomy configuration is loaded from `skills_taxonomy.yaml`, which is not
among the sources; the `SkillTaxonomy` structure models the loaded
configuration after `_build_lookup_maps` ran (normalized-synonym → canonical
map, skill → category map, skill → relationship-group map, exclusion list,
`match_type_weights`, matching flags and threshold).  `sim` models the
sentence-transformer cosine similarity on canonical skill names, and
`hasEmbeddingModel` whether an embedding model was supplied. -/

structure SkillTaxonomy where
  synonymToCanonical : List (String × String)
  skillToCategory : List (String × String)
  skillToRelationships : List (String × List String)
  exclusions : List (List String)
  exactWeight : ℚ
  synonymWeight : ℚ
  semanticWeight : ℚ
  categoryWeight : ℚ
  enableSynonym : Bool
  enableSemantic : Bool
  enableCategory : Bool
  semanticThreshold : ℚ
  stripSpecialChars : Bool
  hasEmbeddingModel : Bool
  sim : String → String → ℚ

structure SkillMatch where
  job_skill : String
  candidate_skill : String
  match_type : String
  confidence : ℚ
  weight : ℚ
  is_required : Bool
  category : Option String
deriving DecidableEq

def lookupStr (m : List (String × String)) (k : String) : Option String :=
  (m.find? (fun p => p.1 == k)).map (fun p => p.2)

/-- `SkillMatcher._normalize_skill`. -/
def normalizeSkill (t : SkillTaxonomy) (s : String) : String :=
  if s = "" then ""
  else
    let s1 := pyStrip (strLower s)
    let s2 := if t.stripSpecialChars then
        (⟨s1.data.filter (fun c => isWordChar c || isWsChar c || c == '-')⟩ : String)
      else s1
    String.intercalate " " (pySplit s2)

/-- `SkillMatcher._get_canonical_skill`. -/
def getCanonicalSkill (t : SkillTaxonomy) (s : String) : String :=
  (lookupStr t.synonymToCanonical (normalizeSkill t s)).getD (normalizeSkill t s)

/-- `SkillMatcher._is_excluded_pair`. -/
def isExcludedPair (t : SkillTaxonomy) (a b : String) : Bool :=
  t.exclusions.any (fun pair =>
    pair.contains (getCanonicalSkill t a) && pair.contains (getCanonicalSkill t b))

/-- `SkillMatcher._calculate_semantic_similarity` (cosine similarity of the
cached canonical-skill embeddings, 0 when disabled, model-less or excluded). -/
def semanticSimilarity (t : SkillTaxonomy) (a b : String) : ℚ :=
  if t.enableSemantic = false ∨ t.hasEmbeddingModel = false then 0
  else if isExcludedPair t a b = true then 0
  else t.sim (getCanonicalSkill t a) (getCanonicalSkill t b)

def relsOf (t : SkillTaxonomy) (s : String) : List String :=
  ((t.skillToRelationships.find? (fun p => p.1 == s)).map (fun p => p.2)).getD []

/-- Strategy 2 of `_match_single_skill` (synonym match): update the
`(best_match, best_confidence)` state for one candidate skill. -/
def synStep (t : SkillTaxonomy) (jobSkill jobNorm jobCanon cs : String) (isReq : Bool)
    (st : Option SkillMatch × ℚ) : Option SkillMatch × ℚ :=
  if t.enableSynonym = true ∧ jobCanon = getCanonicalSkill t cs ∧
      jobNorm ≠ normalizeSkill t cs ∧ st.2 < 95/100 then
    (some ⟨jobSkill, cs, "synonym", 95/100, t.synonymWeight, isReq,
      lookupStr t.skillToCategory jobCanon⟩, 95/100)
  else st

/-- Strategy 3 of `_match_single_skill` (semantic match). -/
def semStep (t : SkillTaxonomy) (jobSkill jobCanon cs : String) (isReq : Bool)
    (st : Option SkillMatch × ℚ) : Option SkillMatch × ℚ :=
  let sSim := semanticSimilarity t jobSkill cs
  if t.enableSemantic = true ∧ t.semanticThreshold ≤ sSim ∧ st.2 < sSim * (85/100) then
    (some ⟨jobSkill, cs, "semantic", sSim * (85/100), t.semanticWeight, isReq,
      lookupStr t.skillToCategory jobCanon⟩, sSim * (85/100))
  else st

/-- Strategy 4 of `_match_single_skill` (category match). -/
def catStep (t : SkillTaxonomy) (jobSkill jobCanon cs : String) (isReq : Bool)
    (st : Option SkillMatch × ℚ) : Option SkillMatch × ℚ :=
  let commonRels := (relsOf t jobCanon).filter
    (fun g => (relsOf t (getCanonicalSkill t cs)).contains g)
  if t.enableCategory = true ∧ commonRels ≠ [] ∧ st.2 < 7/10 then
    (some ⟨jobSkill, cs, "category", 7/10, t.categoryWeight, isReq, commonRels.head?⟩, 7/10)
  else st

/-- Strategies 2-4 of `_match_single_skill` for one candidate skill, applied
in source order to the `(best_match, best_confidence)` state. -/
def strategyStep (t : SkillTaxonomy) (jobSkill jobNorm jobCanon cs : String)
    (isReq : Bool) (best : Option SkillMatch) (bc : ℚ) : Option SkillMatch × ℚ :=
  catStep t jobSkill jobCanon cs isReq
    (semStep t jobSkill jobCanon cs isReq
      (synStep t jobSkill jobNorm jobCanon cs isReq (best, bc)))

/-- The candidate-skill loop of `_match_single_skill`: an exact normalized
match returns immediately, otherwise the best of strategies 2-4 is kept. -/
def msLoop (t : SkillTaxonomy) (jobSkill jobNorm jobCanon : String) (isReq : Bool) :
    List String → Option SkillMatch → ℚ → Option SkillMatch
  | [], best, _ => best
  | cs :: rest, best, bc =>
    if normalizeSkill t cs = jobNorm then
      some ⟨jobSkill, cs, "exact", 1, t.exactWeight, isReq, lookupStr t.skillToCategory jobCanon⟩
    else
      let st := strategyStep t jobSkill jobNorm jobCanon cs isReq best bc
      msLoop t jobSkill jobNorm jobCanon isReq rest st.1 st.2

/-- `SkillMatcher._match_single_skill`. -/
def matchSingleSkill (t : SkillTaxonomy) (jobSkill : String)
    (candidateSkills : List String) (isReq : Bool) : Option SkillMatch :=
  msLoop t jobSkill (normalizeSkill t jobSkill) (getCanonicalSkill t jobSkill)
    isReq candidateSkills none 0

/-- The matched/missing loops of `match_skills`. -/
def partitionMatches (t : SkillTaxonomy) (cands : List String) (isReq : Bool) :
    List String → List SkillMatch × List String
  | [] => ([], [])
  | js :: rest =>
    let r := partitionMatches t cands isReq rest
    match matchSingleSkill t js cands isReq with
    | some m => (m :: r.1, r.2)
    | none => (r.1, js :: r.2)

/-- `SkillMatchResult` (the `match_details` dictionary is flattened into the
six numeric fields it carries). -/
structure SkillMatchResult where
  matched_required : List SkillMatch
  matched_preferred : List SkillMatch
  missing_required : List String
  missing_preferred : List String
  total_required_skills : ℕ
  total_preferred_skills : ℕ
  required_match_score : ℚ
  preferred_match_score : ℚ
  overall_skill_score : ℚ
  exact_matches : ℕ
  synonym_matches : ℕ
  semantic_matches : ℕ
  category_matches : ℕ
  required_match_rate : ℚ
  preferred_match_rate : ℚ
deriving DecidableEq

/-- `SkillMatcher.match_skills`. -/
def matchSkills (t : SkillTaxonomy)
    (requiredJobSkills preferredJobSkills candidateSkills : List String) :
    SkillMatchResult :=
  let pr := partitionMatches t candidateSkills true requiredJobSkills
  let pp := partitionMatches t candidateSkills false preferredJobSkills
  let totalRequired := requiredJobSkills.length
  let totalPreferred := preferredJobSkills.length
  -- Edge case: candidate has no skills at all
  if candidateSkills = [] ∧ (0 < totalRequired ∨ 0 < totalPreferred) then
    { matched_required := [], matched_preferred := [],
      missing_required := requiredJobSkills, missing_preferred := preferredJobSkills,
      total_required_skills := totalRequired, total_preferred_skills := totalPreferred,
      required_match_score := 0, preferred_match_score := 0, overall_skill_score := 0,
      exact_matches := 0, synonym_matches := 0, semantic_matches := 0,
      category_matches := 0, required_match_rate := 0, preferred_match_rate := 0 }
  else
    let requiredMatchScore : ℚ :=
      if 0 < totalRequired then
        ((pr.1.map (fun m => m.confidence * m.weight)).sum / totalRequired) * 100
      else 100
    let preferredMatchScore : ℚ :=
      if 0 < totalPreferred then
        ((pp.1.map (fun m => m.confidence * m.weight)).sum / totalPreferred) * 100
      else 100
    let overall := requiredMatchScore * (7/10) + preferredMatchScore * (3/10)
    let allMatches := pr.1 ++ pp.1
    { matched_required := pr.1, matched_preferred := pp.1,
      missing_required := pr.2, missing_preferred := pp.2,
      total_required_skills := totalRequired, total_preferred_skills := totalPreferred,
      required_match_score := requiredMatchScore,
      preferred_match_score := preferredMatchScore,
      overall_skill_score := overall,
      exact_matches := (allMatches.filter (fun m => m.match_type == "exact")).length,
      synonym_matches := (allMatches.filter (fun m => m.match_type == "synonym")).length,
      semantic_matches := (allMatches.filter (fun m => m.match_type == "semantic")).length,
      category_matches := (allMatches.filter (fun m => m.match_type == "category")).length,
      required_match_rate :=
        if 0 < totalRequired then (pr.1.length : ℚ) / totalRequired else 1,
      preferred_match_rate :=
        if 0 < totalPreferred then (pp.1.length : ℚ) / totalPreferred else 1 }

/-! ## Comprehensive scorer (`core/scoring/comprehensive_scorer.py`)

Candidate and job records are the key/value dictionaries consumed by the
scorer; absent keys are the `.get` defaults of the source (empty string /
empty list / `0`, `30` for availability, `"No Preference"` for the gender
preference, `none` for the optional maximum experience).  Python numeric
string formatting (`f"{x:.1f}"`, `f"{x:,}"`, `str(...)` of lists) is
abstracted by the deterministic `fmtNum`/`fmtList`; only the truthiness and
determinism of the formatted strings are relevant to any property below. -/

def fmtNum (x : ℚ) : String := toString x

def fmtList (l : List String) : String := toString l

inductive MatchLevel
  | excellent
  | good
  | partialMatch
  | poor
  | notApplicable
deriving DecidableEq

/-- `ComprehensiveScorer._get_match_level`. -/
def getMatchLevel (score : ℤ) : MatchLevel :=
  if 85 ≤ score then .excellent
  else if 70 ≤ score then .good
  else if 50 ≤ score then .partialMatch
  else .poor

/-- A Python value stored in `candidate_value` / `job_requirement` (either a
string or a list of strings in the source). -/
inductive PyVal
  | str (s : String)
  | list (l : List String)
deriving DecidableEq

/-- Python truthiness of a `PyVal`. -/
def PyVal.truthy : PyVal → Bool
  | .str s => s != ""
  | .list l => !l.isEmpty

structure FieldA where
  field_name : String
  field_label : String
  candidate_value : PyVal
  job_requirement : PyVal
  score : ℤ
  explanation : String
  match_level : MatchLevel
  weight : ℚ := 1
deriving DecidableEq

structure SectionA where
  section_name : String
  section_label : String
  fields : List FieldA
  total_score : ℤ
  weighted_score : ℚ
  explanation : String
  match_level : MatchLevel
  weight : ℚ
deriving DecidableEq

inductive CVInsights
  | warning
  | info (word_count : ℕ)
      (has_email has_phone has_linkedin has_structured_sections has_achievements : Bool)
deriving DecidableEq

structure CVAssess where
  cv_score : ℤ
  cv_quality_score : ℤ
  content_relevance_score : ℤ
  keyword_match_score : ℤ
  experience_extraction_score : ℤ
  skills_extraction_score : ℤ
  explanation : String
  matched_keywords : List String
  missing_keywords : List String
  cv_insights : CVInsights
deriving DecidableEq

structure CompResult where
  total_score : ℤ
  sections : List SectionA
  cv_assessment : Option CVAssess
  is_rejected : Bool
  rejection_reasons : List String
  overall_explanation : String
  recommendation : String
  confidence_score : ℚ
  timestamp : String
deriving DecidableEq

inductive CertEntry
  | strCert (s : String)
  | dictCert (issue_date certification_name : String)
deriving DecidableEq

structure EduEntry where
  field_of_study : String := ""
deriving DecidableEq

structure EmpEntry where
  industry : String := ""
deriving DecidableEq

structure Candidate where
  nationality : String := ""
  current_country : String := ""
  current_city : String := ""
  visa_status : String := ""
  availability_to_join_days : ℚ := 30
  gender : String := ""
  driving_license : String := ""
  driving_license_country : String := ""
  total_experience_years : ℚ := 0
  gcc_experience_years : ℚ := 0
  preferred_industry : String := ""
  employment_summary : String := ""
  preferred_functional_area : String := ""
  preferred_designation : String := ""
  education_level : String := ""
  education_details : List EduEntry := []
  it_skills_certifications : List String := []
  professional_skills : List String := []
  functional_skills : List String := []
  it_skills : List String := []
  skills : List String := []
  certifications : List CertEntry := []
  employment_history : List EmpEntry := []
  languages_known : List String := []
  specialization : String := ""
  expected_salary : ℚ := 0
  current_salary : ℚ := 0
  cv_text : String := ""
deriving DecidableEq

structure Job where
  preferred_nationality : List String := []
  country : String := ""
  city : String := ""
  preferred_locations : List String := []
  visa_requirement : String := ""
  required_date_of_joining : String := ""
  gender_preference : String := "No Preference"
  min_experience_years : ℚ := 0
  max_experience_years : Option ℚ := none
  min_gcc_experience_years : ℚ := 0
  require_gcc_experience : Bool := false
  industry : String := ""
  sub_industry : String := ""
  functional_area : String := ""
  designation : String := ""
  required_education : String := ""
  job_description : String := ""
  title : String := ""
  required_skills : List String := []
  preferred_skills : List String := []
  keywords : List String := []
  salary_min : ℚ := 0
  salary_max : ℚ := 0
deriving DecidableEq

/-- `ComprehensiveScorer._calculate_section_score`. -/
def sectionScoreZ (fields : List FieldA) : ℤ :=
  let tw := (fields.map (fun f => (f.score : ℚ) * f.weight)).sum
  let w := (fields.map (fun f => f.weight)).sum
  if 0 < w then pyRound (tw / w) else 0

def replaceUnderscore (s : String) : String :=
  ⟨s.data.map (fun c => if c == '_' then ' ' else c)⟩

/-- `ComprehensiveScorer._generate_section_explanation`. -/
def genSectionExplanation (sectionName : String) (score : ℤ) (fields : List FieldA) :
    String :=
  let high := fields.filter (fun f => decide (80 ≤ f.score))
  let low := fields.filter (fun f => decide (f.score < 60))
  let p1 :=
    if 85 ≤ score then "Excellent match on " ++ replaceUnderscore sectionName
    else if 70 ≤ score then "Good match on " ++ replaceUnderscore sectionName
    else if 50 ≤ score then "Partial match on " ++ replaceUnderscore sectionName
    else "Weak match on " ++ replaceUnderscore sectionName
  let parts := [p1]
    ++ (if high ≠ [] then
        ["Strong in: " ++ String.intercalate ", " ((high.take 2).map (fun f => f.field_label))]
      else [])
    ++ (if low ≠ [] then
        ["Gaps in: " ++ String.intercalate ", " ((low.take 2).map (fun f => f.field_label))]
      else [])
  String.intercalate ". " parts

/-- `ComprehensiveScorer._assess_personal_details` (the six field scores). -/
def natScoreZ (prefs : List String) (nat : String) : ℤ :=
  if prefs = [] ∨ nat = "" then 100
  else if nat ∈ prefs then 100
  else 70

def locScoreZ (candLoc jobLoc : String) (prefLocs : List String) : ℤ :=
  if jobLoc = "" ∧ prefLocs = [] then 100
  else if strIn (strLower candLoc) (strLower jobLoc) = true ∨
      strIn (strLower jobLoc) (strLower candLoc) = true then 100
  else if prefLocs.any (fun loc => strIn (strLower loc) (strLower candLoc)) = true then 90
  else 60

def visaScoreZ (visaReq visa : String) : ℤ :=
  if visaReq = "" then 100
  else if visa ≠ "" ∧ strIn "valid" (strLower visa) = true then 100
  else if visa ≠ "" then 80
  else 60

def availScoreZ (d : ℚ) : ℤ :=
  if d ≤ 7 then 100 else if d ≤ 30 then 90 else if d ≤ 60 then 75
  else if d ≤ 90 then 60 else 40

def genderScoreZ (pref g : String) : ℤ :=
  if pref = "No Preference" ∨ pref = "" then 100
  else if g ≠ "" ∧ strLower g = strLower pref then 100
  else if g = "" then 80
  else 50

def licenseScoreZ (dl : String) : ℤ := if dl = "Yes" then 100 else 70

def assessPersonalDetails (c : Candidate) (j : Job) : SectionA :=
  let natScore := natScoreZ j.preferred_nationality c.nationality
  let natExpl :=
    if j.preferred_nationality = [] ∨ c.nationality = "" then
      "No nationality requirement specified"
    else if c.nationality ∈ j.preferred_nationality then
      "Nationality '" ++ c.nationality ++ "' matches preference"
    else "Nationality '" ++ c.nationality ++ "' not in preferred list: " ++
      fmtList j.preferred_nationality
  let candLoc := pyOrS c.current_country c.current_city
  let jobLoc := pyOrS j.country j.city
  let locScore := locScoreZ candLoc jobLoc j.preferred_locations
  let locExpl :=
    if jobLoc = "" ∧ j.preferred_locations = [] then "No location requirement"
    else if strIn (strLower candLoc) (strLower jobLoc) = true ∨
        strIn (strLower jobLoc) (strLower candLoc) = true then
      "Candidate location '" ++ candLoc ++ "' matches job location '" ++ jobLoc ++ "'"
    else if j.preferred_locations.any
        (fun loc => strIn (strLower loc) (strLower candLoc)) = true then
      "Candidate in preferred location: " ++ candLoc
    else "Candidate location '" ++ candLoc ++ "' differs from job location '" ++ jobLoc ++ "'"
  let visaScore := visaScoreZ j.visa_requirement c.visa_status
  let visaExpl :=
    if j.visa_requirement = "" then "No specific visa requirement"
    else if c.visa_status ≠ "" ∧ strIn "valid" (strLower c.visa_status) = true then
      "Valid visa status: " ++ c.visa_status
    else if c.visa_status ≠ "" then "Visa status: " ++ c.visa_status
    else "Visa status not specified"
  let d := c.availability_to_join_days
  let availScore := availScoreZ d
  let availExpl :=
    if d ≤ 7 then "Immediately available (within " ++ fmtNum d ++ " days)"
    else if d ≤ 30 then "Available within " ++ fmtNum d ++ " days (1 month notice)"
    else if d ≤ 60 then "Available within " ++ fmtNum d ++ " days (2 months notice)"
    else if d ≤ 90 then "Available within " ++ fmtNum d ++ " days (3 months notice)"
    else "Long notice period: " ++ fmtNum d ++ " days"
  let genderScore := genderScoreZ j.gender_preference c.gender
  let genderExpl :=
    if j.gender_preference = "No Preference" ∨ j.gender_preference = "" then
      "No gender preference"
    else if c.gender ≠ "" ∧ strLower c.gender = strLower j.gender_preference then
      "Gender matches preference: " ++ j.gender_preference
    else if c.gender = "" then "Candidate gender not specified"
    else "Gender '" ++ c.gender ++ "' does not match preference '" ++ j.gender_preference ++ "'"
  let hasLicense := c.driving_license = "Yes"
  let licenseScore := licenseScoreZ c.driving_license
  let licenseExpl :=
    if hasLicense then
      "Valid driving license from " ++
        (if c.driving_license_country = "" then "unspecified country"
         else c.driving_license_country)
    else "No driving license"
  let fields : List FieldA :=
    [{ field_name := "nationality", field_label := "Nationality",
       candidate_value := .str (pyOrS c.nationality "Not specified"),
       job_requirement :=
         .list (if j.preferred_nationality = [] then ["No preference"]
           else j.preferred_nationality),
       score := natScore, explanation := natExpl, match_level := getMatchLevel natScore },
     { field_name := "location", field_label := "Location",
       candidate_value := .str (pyOrS candLoc "Not specified"),
       job_requirement := .str (pyOrS jobLoc "Flexible"),
       score := locScore, explanation := locExpl, match_level := getMatchLevel locScore },
     { field_name := "visa_status", field_label := "Visa Status",
       candidate_value := .str (pyOrS c.visa_status "Not specified"),
       job_requirement := .str (pyOrS j.visa_requirement "Not specified"),
       score := visaScore, explanation := visaExpl, match_level := getMatchLevel visaScore },
     { field_name := "availability", field_label := "Availability to Join",
       candidate_value := .str (fmtNum d ++ " days"),
       job_requirement := .str (pyOrS j.required_date_of_joining "ASAP preferred"),
       score := availScore, explanation := availExpl,
       match_level := getMatchLevel availScore },
     { field_name := "gender", field_label := "Gender Preference",
       candidate_value := .str (pyOrS c.gender "Not specified"),
       job_requirement := .str j.gender_preference,
       score := genderScore, explanation := genderExpl,
       match_level := getMatchLevel genderScore },
     { field_name := "driving_license", field_label := "Driving License",
       candidate_value := .str (if hasLicense then "Yes" else "No"),
       job_requirement := .str "Preferred",
       score := licenseScore, explanation := licenseExpl,
       match_level := getMatchLevel licenseScore }]
  let s := sectionScoreZ fields
  { section_name := "personal_details", section_label := "Personal Details & Eligibility",
    fields := fields, total_score := s, weighted_score := (s : ℚ) * (1/10),
    explanation := genSectionExplanation "personal_details" s fields,
    match_level := getMatchLevel s, weight := 1/10 }

/-- `ComprehensiveScorer._assess_experience` — total-experience score. -/
def expScoreZ (exp minE maxE : ℚ) : ℤ :=
  if minE ≤ exp ∧ exp ≤ maxE then 100
  else if minE ≤ exp then (if exp ≤ maxE + 5 then 85 else 70)
  else if minE - 1 ≤ exp then 75
  else if minE * (1/2) ≤ exp then 50
  else 25

/-- GCC-experience score. -/
def gccScoreZ (gcc minGcc : ℚ) : ℤ :=
  if minGcc = 0 then (if 0 < gcc then 100 else 80)
  else if minGcc ≤ gcc then 100
  else if 0 < gcc then 60
  else 30

def logisticsTerms : List String :=
  ["logistics", "supply chain", "warehouse", "freight", "shipping", "transport"]

/-- Industry-match score from the matched industry-keyword count. -/
def industryScoreZ (matchedCount : ℕ) (summaryLower : String) : ℤ :=
  if 2 ≤ matchedCount then 100
  else if matchedCount = 1 then 85
  else if logisticsTerms.any (fun w => strIn w summaryLower) = true then 75
  else 50

/-- Functional-area score. -/
def funcScoreZ (jobFunc candFunc combinedLower : String) : ℤ :=
  if jobFunc = "" then 100
  else if strIn (strLower jobFunc) combinedLower = true then 95
  else if candFunc ≠ "" then 70
  else 60

/-- `ComprehensiveScorer._match_designation_level` levels table. -/
def desigLevels : List (String × ℤ) :=
  [("junior", 1), ("entry", 1), ("mid", 2), ("intermediate", 2), ("senior", 3),
   ("lead", 3), ("manager", 4), ("head", 4), ("director", 5), ("executive", 5),
   ("vp", 5), ("cxo", 6)]

def maxLevelIn (table : List (String × ℤ)) (s : String) : ℤ :=
  table.foldl (fun acc p =>
    if s ≠ "" ∧ strIn p.1 (strLower s) = true then max acc p.2 else acc) 0

/-- `ComprehensiveScorer._match_designation_level`. -/
def matchDesignationLevel (cand job : String) : Bool :=
  (maxLevelIn desigLevels cand - maxLevelIn desigLevels job).natAbs ≤ 1

def desigScoreZ (jobDesig candDesig : String) : ℤ :=
  if jobDesig = "" then 100
  else if matchDesignationLevel candDesig jobDesig = true then 95
  else 70

def assessExperience (c : Candidate) (j : Job) : SectionA :=
  let exp := c.total_experience_years
  let minE := j.min_experience_years
  let maxE := j.max_experience_years.getD (minE + 10)
  let expScore := expScoreZ exp minE maxE
  let expExpl :=
    if minE ≤ exp ∧ exp ≤ maxE then
      fmtNum exp ++ " years perfectly matches required range (" ++ fmtNum minE ++ "-" ++
        fmtNum maxE ++ " years)"
    else if minE ≤ exp then
      (if exp ≤ maxE + 5 then
        fmtNum exp ++ " years experience exceeds maximum (" ++ fmtNum maxE ++
          "), but within acceptable range"
      else
        fmtNum exp ++ " years may be overqualified for this role (requires " ++
          fmtNum minE ++ "-" ++ fmtNum maxE ++ " years)")
    else if minE - 1 ≤ exp then
      fmtNum exp ++ " years is slightly below minimum (" ++ fmtNum minE ++ " years), but close"
    else if minE * (1/2) ≤ exp then
      fmtNum exp ++ " years experience is below minimum requirement of " ++ fmtNum minE ++ " years"
    else "Insufficient experience: " ++ fmtNum exp ++ " years vs required " ++ fmtNum minE ++ " years"
  let gcc := c.gcc_experience_years
  let minGcc := if j.require_gcc_experience then j.min_gcc_experience_years else 0
  let gccScore := gccScoreZ gcc minGcc
  let gccExpl :=
    if minGcc = 0 then
      (if 0 < gcc then "GCC experience: " ++ fmtNum gcc ++ " years"
       else "No GCC experience, not required")
    else if minGcc ≤ gcc then
      fmtNum gcc ++ " years GCC experience meets requirement (" ++ fmtNum minGcc ++
        " years minimum)"
    else if 0 < gcc then
      fmtNum gcc ++ " years GCC experience is below required " ++ fmtNum minGcc ++ " years"
    else "No GCC experience, but " ++ fmtNum minGcc ++ " years required"
  let industryKeywords :=
    if j.sub_industry ≠ "" then [strLower j.industry, strLower j.sub_industry]
    else [strLower j.industry]
  let summaryLower := strLower (c.employment_summary ++ " " ++ c.preferred_industry)
  let matchedIndustries :=
    industryKeywords.filter (fun k => k != "" && strIn k summaryLower)
  let indScore := industryScoreZ matchedIndustries.length summaryLower
  let indExpl :=
    if 2 ≤ matchedIndustries.length then
      "Strong industry match: experience in " ++ String.intercalate ", " matchedIndustries
    else if matchedIndustries.length = 1 then
      "Industry match found: " ++ (matchedIndustries.head?.getD "")
    else if logisticsTerms.any (fun w => strIn w summaryLower) = true then
      "Related logistics/supply chain experience detected"
    else "No direct industry match found for " ++ j.industry
  let combinedLower := strLower (c.preferred_functional_area ++ " " ++ c.employment_summary)
  let funcScore := funcScoreZ j.functional_area c.preferred_functional_area combinedLower
  let funcExpl :=
    if j.functional_area = "" then "No specific functional area requirement"
    else if strIn (strLower j.functional_area) combinedLower = true then
      "Functional area '" ++ j.functional_area ++ "' matches candidate experience"
    else if c.preferred_functional_area ≠ "" then
      "Candidate functional area '" ++ c.preferred_functional_area ++
        "' differs from job requirement '" ++ j.functional_area ++ "'"
    else "Functional area experience not clearly defined"
  let desigScore := desigScoreZ j.designation c.preferred_designation
  let desigExpl :=
    if j.designation = "" then "No specific designation requirement"
    else if matchDesignationLevel c.preferred_designation j.designation = true then
      "Designation level matches: seeking " ++ j.designation
    else
      "Designation: candidate seeking '" ++ c.preferred_designation ++ "', job offers '" ++
        j.designation ++ "'"
  let fields : List FieldA :=
    [{ field_name := "total_experience", field_label := "Total Experience",
       candidate_value := .str (fmtNum exp ++ " years"),
       job_requirement := .str (fmtNum minE ++ "-" ++ fmtNum maxE ++ " years"),
       score := expScore, explanation := expExpl, match_level := getMatchLevel expScore,
       weight := 3/2 },
     { field_name := "gcc_experience", field_label := "GCC Experience",
       candidate_value := .str (fmtNum gcc ++ " years"),
       job_requirement := .str (if 0 < minGcc then fmtNum minGcc ++ " years minimum"
         else "Not required"),
       score := gccScore, explanation := gccExpl, match_level := getMatchLevel gccScore,
       weight := 6/5 },
     { field_name := "industry", field_label := "Industry Experience",
       candidate_value := .str (pyOrS c.preferred_industry "From work history"),
       job_requirement := .str (j.industry ++
         (if j.sub_industry ≠ "" then " / " ++ j.sub_industry else "")),
       score := indScore, explanation := indExpl, match_level := getMatchLevel indScore },
     { field_name := "functional_area", field_label := "Functional Area",
       candidate_value := .str (pyOrS c.preferred_functional_area "Not specified"),
       job_requirement := .str (pyOrS j.functional_area "Not specified"),
       score := funcScore, explanation := funcExpl, match_level := getMatchLevel funcScore },
     { field_name := "designation", field_label := "Designation/Role Level",
       candidate_value := .str (pyOrS c.preferred_designation "Open"),
       job_requirement := .str (pyOrS j.designation "Not specified"),
       score := desigScore, explanation := desigExpl,
       match_level := getMatchLevel desigScore }]
  let s := sectionScoreZ fields
  { section_name := "experience", section_label := "Experience & Industry",
    fields := fields, total_score := s, weighted_score := (s : ℚ) * (1/4),
    explanation := genSectionExplanation "experience" s fields,
    match_level := getMatchLevel s, weight := 1/4 }

/-- `ComprehensiveScorer._assess_education` — education hierarchy. -/
def eduHierarchy : List (String × ℤ) :=
  [("phd", 5), ("doctorate", 5), ("masters", 4), ("master", 4), ("mba", 4), ("msc", 4),
   ("bachelors", 3), ("bachelor", 3), ("bsc", 3), ("btech", 3), ("diploma", 2),
   ("associate", 2), ("high school", 1), ("secondary", 1)]

def eduScoreZ (candEdu reqEdu : String) : ℤ :=
  let cl := maxLevelIn eduHierarchy candEdu
  let rl := maxLevelIn eduHierarchy reqEdu
  if rl = 0 then 100
  else if rl ≤ cl then 100
  else if cl = rl - 1 then 75
  else 50

def studyRelevanceZ (fieldsOfStudy : List String) (jobKeywordsLower : String) : ℤ :=
  if fieldsOfStudy.any (fun f => strIn (strLower f) jobKeywordsLower) = true then 95 else 75

def certScoreZ (n : ℕ) : ℤ := if n ≠ 0 then min 100 (70 + (n : ℤ) * 10) else 60

def assessEducation (c : Candidate) (j : Job) : SectionA :=
  let eduScore := eduScoreZ c.education_level j.required_education
  let cl := maxLevelIn eduHierarchy c.education_level
  let rl := maxLevelIn eduHierarchy j.required_education
  let eduExpl :=
    if rl = 0 then "No specific education requirement"
    else if rl ≤ cl then
      "Education '" ++ c.education_level ++ "' meets or exceeds requirement '" ++
        j.required_education ++ "'"
    else if cl = rl - 1 then
      "Education '" ++ c.education_level ++ "' is one level below required '" ++
        j.required_education ++ "'"
    else "Education gap: '" ++ c.education_level ++ "' vs required '" ++
      j.required_education ++ "'"
  let eduField : FieldA :=
    { field_name := "education_level", field_label := "Education Level",
      candidate_value := .str (pyOrS c.education_level "Not specified"),
      job_requirement := .str (pyOrS j.required_education "Not specified"),
      score := eduScore, explanation := eduExpl, match_level := getMatchLevel eduScore,
      weight := 3/2 }
  let studyFields : List FieldA :=
    if c.education_details ≠ [] then
      let fieldsOfStudy :=
        (c.education_details.map (fun e => e.field_of_study)).filter (fun f => f != "")
      let studyText :=
        if fieldsOfStudy ≠ [] then String.intercalate ", " fieldsOfStudy
        else "Not specified"
      let jobKeywords := strLower (j.job_description ++ " " ++ j.title)
      let relevance := studyRelevanceZ fieldsOfStudy jobKeywords
      [{ field_name := "field_of_study", field_label := "Field of Study",
         candidate_value := .str studyText,
         job_requirement := .str "Relevant field preferred",
         score := relevance,
         explanation :=
           if fieldsOfStudy.any (fun f => strIn (strLower f) jobKeywords) = true then
             "Field of study relevant to job requirements"
           else "Field of study may not directly relate to job",
         match_level := getMatchLevel relevance }]
    else []
  let certs := c.it_skills_certifications
  let certScore := certScoreZ certs.length
  let certField : FieldA :=
    { field_name := "certifications", field_label := "Professional Certifications",
      candidate_value := .str (toString certs.length ++ " certifications"),
      job_requirement := .str "Preferred",
      score := certScore,
      explanation :=
        if certs ≠ [] then "Has " ++ toString certs.length ++ " relevant certifications"
        else "No certifications listed",
      match_level := getMatchLevel certScore }
  let fields := [eduField] ++ studyFields ++ [certField]
  let s := sectionScoreZ fields
  { section_name := "education", section_label := "Education & Qualifications",
    fields := fields, total_score := s, weighted_score := (s : ℚ) * (3/20),
    explanation := genSectionExplanation "education" s fields,
    match_level := getMatchLevel s, weight := 3/20 }

/-- The flattened, lowered and deduplicated candidate skill set of
`_assess_skills` (a Python `set`; only membership and `any` queries are made,
so first-occurrence order stands in for hash order). -/
def candSkillSet (c : Candidate) : List String :=
  (((c.professional_skills ++ c.it_skills ++ c.skills).filter (fun s => s != "")).map
    (fun s => pyStrip (strLower s))).eraseDups

/-- The direct-or-partial skill match test of `_assess_skills`. -/
def compSkillHit (candSkills : List String) (skill : String) : Bool :=
  let sl := pyStrip (strLower skill)
  candSkills.contains sl || candSkills.any (fun cs => strIn sl cs || strIn cs sl)

def itScoreZ (n : ℕ) : ℤ := if n ≠ 0 then min 100 (60 + (n : ℤ) * 5) else 50

def assessSkills (c : Candidate) (j : Job) : SectionA :=
  let candSkills := candSkillSet c
  let required := j.required_skills
  let preferred := j.preferred_skills
  let matchedRequired := required.filter (fun s => compSkillHit candSkills s)
  let missingRequired := required.filter (fun s => !compSkillHit candSkills s)
  let reqScore : ℤ :=
    if required ≠ [] then
      pyInt (((matchedRequired.length : ℚ) / (required.length : ℚ)) * 100)
    else 100
  let reqExpl :=
    if required ≠ [] then
      "Matched " ++ toString matchedRequired.length ++ "/" ++ toString required.length ++
        " required skills" ++
        (if missingRequired ≠ [] then
          ". Missing: " ++ String.intercalate ", " (missingRequired.take 3) ++
            (if 3 < missingRequired.length then
              " (+" ++ toString (missingRequired.length - 3) ++ " more)"
             else "")
         else "")
    else "No required skills specified"
  let matchedPreferred := preferred.filter (fun s => compSkillHit candSkills s)
  let prefScore : ℤ :=
    if preferred ≠ [] then
      pyInt (((matchedPreferred.length : ℚ) / (preferred.length : ℚ)) * 100)
    else 100
  let prefExpl :=
    if preferred ≠ [] then
      "Matched " ++ toString matchedPreferred.length ++ "/" ++ toString preferred.length ++
        " preferred skills"
    else "No preferred skills specified"
  let itList := c.it_skills
  let itScore := itScoreZ itList.length
  let fields : List FieldA :=
    [{ field_name := "required_skills", field_label := "Required Skills",
       candidate_value := .list (if matchedRequired ≠ [] then matchedRequired
         else ["None matched"]),
       job_requirement := .list (if required ≠ [] then required else ["None specified"]),
       score := reqScore, explanation := reqExpl, match_level := getMatchLevel reqScore,
       weight := 2 },
     { field_name := "preferred_skills", field_label := "Preferred Skills",
       candidate_value := .list (if matchedPreferred ≠ [] then matchedPreferred
         else ["None matched"]),
       job_requirement := .list (if preferred ≠ [] then preferred else ["None specified"]),
       score := prefScore, explanation := prefExpl,
       match_level := getMatchLevel prefScore },
     { field_name := "it_skills", field_label := "IT/Technical Skills",
       candidate_value := .list (if itList ≠ [] then itList.take 5 else ["None listed"]),
       job_requirement := .str "Technical proficiency preferred",
       score := itScore,
       explanation :=
         if itList ≠ [] then "Has " ++ toString itList.length ++ " IT/technical skills"
         else "No IT skills listed",
       match_level := getMatchLevel itScore }]
  let s := sectionScoreZ fields
  { section_name := "skills", section_label := "Skills Assessment",
    fields := fields, total_score := s, weighted_score := (s : ℚ) * (1/4),
    explanation := genSectionExplanation "skills" s fields,
    match_level := getMatchLevel s, weight := 1/4 }

/-- `ComprehensiveScorer._assess_salary` — salary-alignment score. -/
def salaryScoreZ (minS maxS expected : ℚ) : ℤ :=
  if maxS = 0 then 100
  else if expected = 0 then 80
  else if expected ≤ maxS then (if minS ≤ expected then 100 else 95)
  else if expected ≤ maxS * (11/10) then 80
  else if expected ≤ maxS * (5/4) then 60
  else 40

/-- Salary-progression score. -/
def progScoreZ (current expected : ℚ) : ℤ :=
  let inc := if 0 < current then ((expected - current) / current) * 100 else 0
  if inc ≤ 20 then 100 else if inc ≤ 35 then 85 else if inc ≤ 50 then 70 else 50

def assessSalary (c : Candidate) (j : Job) : SectionA :=
  let expected := c.expected_salary
  let current := c.current_salary
  let minS := j.salary_min
  let maxS := j.salary_max
  let salScore := salaryScoreZ minS maxS expected
  let salExpl :=
    if maxS = 0 then "No salary range specified for this job"
    else if expected = 0 then "Candidate salary expectation not specified"
    else if expected ≤ maxS then
      (if minS ≤ expected then
        "Expected salary " ++ fmtNum expected ++ " fits perfectly within budget (" ++
          fmtNum minS ++ "-" ++ fmtNum maxS ++ ")"
      else
        "Expected salary " ++ fmtNum expected ++ " is below budget range - potential savings")
    else if expected ≤ maxS * (11/10) then
      "Expected salary " ++ fmtNum expected ++ " is slightly above budget (" ++
        fmtNum maxS ++ ") but negotiable"
    else if expected ≤ maxS * (5/4) then
      "Expected salary " ++ fmtNum expected ++ " exceeds budget (" ++ fmtNum maxS ++
        ") by 10-25%"
    else
      "Significant salary gap: expects " ++ fmtNum expected ++ ", budget max is " ++
        fmtNum maxS
  let salField : FieldA :=
    { field_name := "expected_salary", field_label := "Expected Salary",
      candidate_value := .str (if expected ≠ 0 then fmtNum expected else "Not specified"),
      job_requirement := .str (if maxS ≠ 0 then fmtNum minS ++ " - " ++ fmtNum maxS
        else "Not specified"),
      score := salScore, explanation := salExpl, match_level := getMatchLevel salScore,
      weight := 2 }
  let progFields : List FieldA :=
    if current ≠ 0 ∧ expected ≠ 0 then
      let inc := if 0 < current then ((expected - current) / current) * 100 else 0
      let pScore := progScoreZ current expected
      [{ field_name := "salary_progression", field_label := "Salary Progression",
         candidate_value := .str ("Current: " ++ fmtNum current ++ " → Expected: " ++
           fmtNum expected),
         job_requirement := .str "Reasonable expectations preferred",
         score := pScore,
         explanation :=
           if inc ≤ 20 then
             "Reasonable salary expectation (" ++ fmtNum inc ++ "% increase from current)"
           else if inc ≤ 35 then
             "Moderate salary increase expected (" ++ fmtNum inc ++ "%)"
           else if inc ≤ 50 then
             "Significant salary increase expected (" ++ fmtNum inc ++ "%)"
           else "Very high salary expectation (" ++ fmtNum inc ++ "% increase)",
         match_level := getMatchLevel pScore }]
    else []
  let fields := [salField] ++ progFields
  let s := sectionScoreZ fields
  { section_name := "salary", section_label := "Salary Alignment",
    fields := fields, total_score := s, weighted_score := (s : ℚ) * (1/10),
    explanation := genSectionExplanation "salary" s fields,
    match_level := getMatchLevel s, weight := 1/10 }

/-! CV analysis (`_assess_cv`).  The regular expressions of the source are
implemented as explicit character scanners over `List Char`. -/

/-- Character class `[\w.-]` of the e-mail pattern. -/
def emailClass (c : Char) : Bool := isWordChar c || c == '.' || c == '-'

/-- `re.search(r'[\w\.-]+@[\w\.-]+', ...)`. -/
def hasEmail : List Char → Bool
  | a :: b :: c :: rest =>
    (emailClass a && b == '@' && emailClass c) || hasEmail (b :: c :: rest)
  | _ => false

/-- Character class `[\d\s\-\(\)]` of the phone pattern. -/
def phoneClass (c : Char) : Bool :=
  c.isDigit || isWsChar c || c == '-' || c == '(' || c == ')'

def hasRunGo (p : Char → Bool) (need : ℕ) : List Char → ℕ → Bool
  | [], run => need ≤ run
  | c :: rest, run =>
    if need ≤ run then true
    else if p c then hasRunGo p need rest (run + 1)
    else hasRunGo p need rest 0

/-- `re.search(r'[\+]?[\d\s\-\(\)]{10,}', ...)`: a run of at least ten
phone-class characters exists. -/
def hasPhone (l : List Char) : Bool := hasRunGo phoneClass 10 l 0

/-- Match a literal character sequence, returning the rest on success. -/
def dropLit : List Char → List Char → Option (List Char)
  | [], l => some l
  | _, [] => none
  | p :: ps, c :: cs => if p == c then dropLit ps cs else none

def dropWs (l : List Char) : List Char := l.dropWhile isWsChar

/-- Try a position predicate at every suffix (regex `search` semantics). -/
def anyPos (p : List Char → Bool) : List Char → Bool
  | [] => p []
  | c :: rest => p (c :: rest) || anyPos p rest

/-- `\d+\+?\s*years?\s*(of\s*)?experience` at the current position. -/
def expPat1At (l : List Char) : Bool :=
  if (l.head?.map Char.isDigit).getD false then
    let l1 := l.dropWhile Char.isDigit
    let l2 := match l1 with | '+' :: r => r | _ => l1
    let l3 := dropWs l2
    match dropLit "year".data l3 with
    | none => false
    | some l4 =>
      let l5 := match l4 with | 's' :: r => r | _ => l4
      let l6 := dropWs l5
      let l7 := match dropLit "of".data l6 with | some r => dropWs r | none => l6
      (dropLit "experience".data l7).isSome
  else false

/-- `experience\s*:\s*\d+` at the current position. -/
def expPat2At (l : List Char) : Bool :=
  match dropLit "experience".data l with
  | none => false
  | some r =>
    match dropWs r with
    | ':' :: r2 => ((dropWs r2).head?.map Char.isDigit).getD false
    | _ => false

def dashToClass (c : Char) : Bool := c == '-' || c == '–' || c == 't' || c == 'o'

/-- `20\d{2}\s*[-–to]+\s*(20\d{2}|present|current)` at the current position. -/
def expPat3At (l : List Char) : Bool :=
  match l with
  | '2' :: '0' :: a :: b :: rest =>
    if a.isDigit && b.isDigit then
      let l1 := dropWs rest
      match l1 with
      | c :: _ =>
        if dashToClass c then
          let r2 := l1.dropWhile dashToClass
          let r3 := dropWs r2
          (match r3 with
           | '2' :: '0' :: x :: y :: _ => x.isDigit && y.isDigit
           | _ => (dropLit "present".data r3).isSome || (dropLit "current".data r3).isSome)
        else false
      | [] => false
    else false
  | _ => false

/-- `skills?\s*[:\-]` at the current position. -/
def skillsSecAt (l : List Char) : Bool :=
  match dropLit "skill".data l with
  | none => false
  | some r =>
    let r1 := match r with | 's' :: t => t | _ => r
    match dropWs r1 with
    | ':' :: _ => true
    | '-' :: _ => true
    | _ => false

/-- Non-overlapping count of `•|▪|◦|\*|-\s+[A-Z]` (fuel-bounded scan). -/
def bulletCountGo : ℕ → List Char → ℕ
  | 0, _ => 0
  | _ + 1, [] => 0
  | fuel + 1, c :: rest =>
    if c == '•' || c == '▪' || c == '◦' || c == '*' then 1 + bulletCountGo fuel rest
    else if c == '-' then
      match rest with
      | d :: _ =>
        if isWsChar d then
          match rest.dropWhile isWsChar with
          | u :: r3 =>
            if u.isUpper then 1 + bulletCountGo fuel r3 else bulletCountGo fuel rest
          | [] => 0
        else bulletCountGo fuel rest
      | [] => 0
    else bulletCountGo fuel rest

def bulletCount (l : List Char) : ℕ := bulletCountGo l.length l

/-- Maximal word-character runs of a text (used for `\b[A-Za-z]{3,}\b`). -/
def wordRunsGo : List Char → List Char → List (List Char)
  | [], acc => if acc.isEmpty then [] else [acc.reverse]
  | c :: rest, acc =>
    if isWordChar c then wordRunsGo rest (c :: acc)
    else if acc.isEmpty then wordRunsGo rest []
    else acc.reverse :: wordRunsGo rest []

/-- `re.findall(r'\b[A-Za-z]{3,}\b', s)`: the maximal word-character runs that
are all-alphabetic and at least three characters long. -/
def keyTerms (s : String) : List String :=
  ((wordRunsGo s.data []).filter
    (fun r => r.all Char.isAlpha && decide (3 ≤ r.length))).map (fun r => (⟨r⟩ : String))

def commonWords : List String :=
  ["the", "and", "for", "with", "this", "that", "will", "have", "from", "they",
   "are", "been", "has"]

def cvRelevanceTermsA : List String :=
  ["logistics", "supply chain", "warehouse", "freight", "shipping"]

def cvRelevanceTermsB : List String := ["experience", "years", "worked", "employed"]

def achievementWords : List String :=
  ["achieved", "increased", "reduced", "improved", "managed", "led"]

def cvSectionWords : List String := ["experience", "education", "skills", "summary"]

/-- `ComprehensiveScorer._assess_cv`. -/
def assessCV (cvText : String) (j : Job) (_c : Candidate) : CVAssess :=
  if cvText = "" ∨ (pyStrip cvText).data.length < 100 then
    { cv_score := 50, cv_quality_score := 50, content_relevance_score := 50,
      keyword_match_score := 50, experience_extraction_score := 50,
      skills_extraction_score := 50,
      explanation := "CV text is too short or not available for detailed analysis",
      matched_keywords := [], missing_keywords := [], cv_insights := .warning }
  else
    let cvLower := strLower cvText
    let wordCount := (pySplit cvText).length
    -- 1. CV quality
    let qContact := hasEmail cvText.data
    let qPhone := hasPhone cvText.data
    let qLinkedin := strIn "linkedin" cvLower
    let qSections := cvSectionWords.any (fun w => strIn w cvLower)
    let qLength := decide (200 ≤ wordCount)
    let qAchievements := achievementWords.any (fun w => strIn w cvLower)
    let qCount : ℕ :=
      (if qContact then 1 else 0) + (if qPhone then 1 else 0) +
      (if qLinkedin then 1 else 0) + (if qSections then 1 else 0) +
      (if qLength then 1 else 0) + (if qAchievements then 1 else 0)
    let qualityScore := pyInt (((qCount : ℚ) / 6) * 100)
    -- 2. Keyword match
    let kw0 := j.required_skills ++ j.preferred_skills ++ j.keywords
    let jobDesc := j.job_description ++ " " ++ j.title
    let terms := (keyTerms jobDesc).filter (fun t => !commonWords.contains (strLower t))
    -- list(set(...)): Python set order is hash-dependent; first-occurrence
    -- deduplication stands in for it (only lengths and membership feed scores)
    let jobKeywords := (((kw0 ++ terms).filter (fun k => decide (2 < k.data.length))).map
      strLower).eraseDups
    let matchedKeywords := jobKeywords.filter (fun kw => strIn kw cvLower)
    let missingKeywords := (jobKeywords.filter (fun kw => !strIn kw cvLower)).take 10
    let keywordScore : ℤ :=
      if jobKeywords ≠ [] then
        pyInt (((matchedKeywords.length : ℚ) / (max jobKeywords.length 1 : ℕ)) * 100)
      else 75
    -- 3. Content relevance
    let industry := strLower j.industry
    let funcArea := strLower j.functional_area
    let relevanceHits : ℕ :=
      (if industry ≠ "" ∧ strIn industry cvLower = true then 1 else 0) +
      (if funcArea ≠ "" ∧ strIn funcArea cvLower = true then 1 else 0) +
      (if cvRelevanceTermsA.any (fun t => strIn t cvLower) = true then 1 else 0) +
      (if cvRelevanceTermsB.any (fun t => strIn t cvLower) = true then 1 else 0)
    let relevanceScore : ℤ := min 100 (50 + (relevanceHits : ℤ) * 15)
    -- 4. Experience extraction
    let expHits : ℕ :=
      (if anyPos expPat1At cvLower.data then 1 else 0) +
      (if anyPos expPat2At cvLower.data then 1 else 0) +
      (if anyPos expPat3At cvLower.data then 1 else 0)
    let expScore : ℤ := min 100 (50 + (expHits : ℤ) * 20)
    -- 5. Skills extraction
    let skillsSection := anyPos skillsSecAt cvLower.data
    let skillBullets := bulletCount cvText.data
    let skillsScore : ℤ :=
      min 100 (50 + (if skillsSection then 25 else 0) + min ((skillBullets : ℤ) * 5) 25)
    let cvScore := pyInt ((qualityScore : ℚ) * (15/100) + (keywordScore : ℚ) * (30/100) +
      (relevanceScore : ℚ) * (25/100) + (expScore : ℚ) * (15/100) +
      (skillsScore : ℚ) * (15/100))
    let explanationParts :=
      [(if 80 ≤ cvScore then "CV shows strong alignment with job requirements"
        else if 60 ≤ cvScore then "CV has moderate alignment with job requirements"
        else "CV shows limited alignment with job requirements")]
      ++ (if matchedKeywords ≠ [] then
          ["Found " ++ toString matchedKeywords.length ++ " matching keywords"]
         else [])
      ++ (if missingKeywords ≠ [] then
          ["Missing key terms: " ++ String.intercalate ", " (missingKeywords.take 5)]
         else [])
    { cv_score := cvScore, cv_quality_score := qualityScore,
      content_relevance_score := relevanceScore, keyword_match_score := keywordScore,
      experience_extraction_score := expScore, skills_extraction_score := skillsScore,
      explanation := String.intercalate ". " explanationParts,
      matched_keywords := matchedKeywords.take 20,
      missing_keywords := missingKeywords.take 10,
      cv_insights := .info wordCount qContact qPhone qLinkedin qSections qAchievements }

/-- `ComprehensiveScorer.SECTION_WEIGHTS.get(name, 0.1)`. -/
def weightFor (name : String) : ℚ :=
  if name = "personal_details" then 1/10
  else if name = "experience" then 1/4
  else if name = "education" then 3/20
  else if name = "skills" then 1/4
  else if name = "salary" then 1/10
  else if name = "cv_analysis" then 3/20
  else 1/10

/-- `ComprehensiveScorer._generate_overall_explanation`. -/
def genOverallExplanation (sections : List SectionA) (total : ℤ) : String :=
  let strong := sections.filter (fun s => decide (80 ≤ s.total_score))
  let weak := sections.filter (fun s => decide (s.total_score < 60))
  let parts :=
    [(if 80 ≤ total then
        "This candidate shows excellent overall alignment with the job requirements"
      else if 65 ≤ total then
        "This candidate shows good potential for the role with some areas for consideration"
      else if 50 ≤ total then "This candidate has partial alignment with moderate gaps"
      else "This candidate shows significant gaps compared to requirements")]
    ++ (if strong ≠ [] then
        ["Strongest areas: " ++
          String.intercalate ", " ((strong.take 2).map (fun s => s.section_label))]
       else [])
    ++ (if weak ≠ [] then
        ["Areas of concern: " ++
          String.intercalate ", " ((weak.take 2).map (fun s => s.section_label))]
       else [])
  String.intercalate ". " parts ++ "."

/-- `ComprehensiveScorer._generate_recommendation`. -/
def genRecommendation (total : ℤ) (isRejected : Bool) : String :=
  if isRejected then "NOT RECOMMENDED - Candidate does not meet minimum requirements"
  else if 85 ≤ total then "HIGHLY RECOMMENDED - Proceed to interview immediately"
  else if 75 ≤ total then "RECOMMENDED - Strong candidate for shortlist"
  else if 65 ≤ total then "CONSIDER - Review specific gaps before proceeding"
  else if 50 ≤ total then "BORDERLINE - May consider if role requirements are flexible"
  else "NOT RECOMMENDED - Significant gaps exist"

/-- A field counts toward `_calculate_confidence` when its `candidate_value`
is truthy and not the string `'Not specified'`. -/
def fieldCounted (f : FieldA) : Bool :=
  f.candidate_value.truthy &&
    (match f.candidate_value with
     | .str s => s != "Not specified"
     | .list _ => true)

/-- `ComprehensiveScorer._calculate_confidence`. -/
def calcConfidence (sections : List SectionA) : ℚ :=
  let total := (sections.map (fun s => s.fields.length)).sum
  let scored := (sections.map (fun s => (s.fields.filter fieldCounted).length)).sum
  round2 ((scored : ℚ) / ((max total 1 : ℕ) : ℚ))

/-- The CV section object built inside `assess`. -/
def mkCvSection (a : CVAssess) : SectionA :=
  { section_name := "cv_analysis", section_label := "CV/Resume Analysis", fields := [],
    total_score := a.cv_score, weighted_score := (a.cv_score : ℚ) * (3/20),
    explanation := a.explanation, match_level := getMatchLevel a.cv_score,
    weight := 3/20 }

/-- `ComprehensiveScorer.assess`.  `now` is the `datetime.now().isoformat()`
string read from the system clock at return time. -/
def assess (c : Candidate) (j : Job) (cvText : String) (now : String) : CompResult :=
  let personal := assessPersonalDetails c j
  let experience := assessExperience c j
  let education := assessEducation c j
  let skills := assessSkills c j
  let salary := assessSalary c j
  let rejectionReasons :=
    (if experience.total_score < 30 then
      ["Experience mismatch: " ++ experience.explanation] else []) ++
    (if skills.total_score < 30 then ["Skills gap: " ++ skills.explanation] else [])
  let cvEff := pyOrS cvText c.cv_text
  let cvA : Option CVAssess := if cvEff ≠ "" then some (assessCV cvEff j c) else none
  let sections := [personal, experience, education, skills, salary] ++
    (match cvA with | some a => [mkCvSection a] | none => [])
  let totalWeighted :=
    (sections.map (fun s => (s.total_score : ℚ) * weightFor s.section_name)).sum
  let totalWeight := (sections.map (fun s => weightFor s.section_name)).sum
  let total : ℤ := if 0 < totalWeight then pyRound (totalWeighted / totalWeight) else 0
  let isRejected := !rejectionReasons.isEmpty || decide (total < 25)
  { total_score := total, sections := sections, cv_assessment := cvA,
    is_rejected := isRejected, rejection_reasons := rejectionReasons,
    overall_explanation := genOverallExplanation sections total,
    recommendation := genRecommendation total isRejected,
    confidence_score := calcConfidence sections,
    timestamp := now }

/-! ## Growth Potential Analyzer (`core/scoring/growth_potential_analyzer.py`)

`currentYear` is `datetime.now().year`.  The informational `key_factors` /
`details` dictionaries are passthroughs of the component internals and are not
modelled; scores and indicator lists are. -/

structure GComp where
  score : ℚ
  indicators : List String

def modernTech : List String :=
  ["react", "vue", "angular", "node", "python", "ai", "ml", "cloud", "aws",
   "azure", "docker", "kubernetes", "microservices"]

def premiumCerts : List String :=
  ["aws", "azure", "gcp", "pmp", "cissp", "cpa", "cfa", "scrum", "agile",
   "six sigma", "itil", "ccna", "ccnp"]

def upwardKeywords : List String :=
  ["senior", "lead", "manager", "head", "director", "principal"]

def softSkillsList : List String :=
  ["leadership", "communication", "teamwork", "problem solving", "analytical",
   "management", "strategic", "collaboration"]

def skillCountBonus (n : ℕ) : ℚ :=
  if 15 < n then 20 else if 10 < n then 15 else if 5 < n then 10 else 0

def recentCertBonus (n : ℕ) : ℚ := if 3 ≤ n then 15 else if 1 ≤ n then 10 else 0

def modernTechBonus (n : ℕ) : ℚ := if 5 ≤ n then 15 else if 3 ≤ n then 10 else 0

def isRecentCert (currentYear : ℤ) : CertEntry → Bool
  | .strCert _ => false
  | .dictCert issueDate _ => issueDate != "" && strIn (toString (currentYear - 2)) issueDate

/-- `GrowthPotentialAnalyzer._assess_skill_acquisition_rate`. -/
def assessSkillAcquisition (c : Candidate) (currentYear : ℤ) : GComp :=
  let totalSkills := c.skills.length + c.it_skills.length
  let recentCerts := (c.certifications.filter (isRecentCert currentYear)).length
  let modernCount := ((c.skills ++ c.it_skills).filter
    (fun s => modernTech.any (fun t => strIn t (strLower s)))).length
  { score := min 100 (50 + skillCountBonus totalSkills + recentCertBonus recentCerts +
      modernTechBonus modernCount),
    indicators :=
      (if 15 < totalSkills then
        ["Extensive skill portfolio (" ++ toString totalSkills ++ " skills)"]
       else if 10 < totalSkills then
        ["Strong skill diversity (" ++ toString totalSkills ++ " skills)"]
       else []) ++
      (if 3 ≤ recentCerts then
        ["Active learner: " ++ toString recentCerts ++ " recent certifications"]
       else if 1 ≤ recentCerts then
        [toString recentCerts ++ " recent certification(s)"]
       else []) ++
      (if 5 ≤ modernCount then
        ["Adopting modern technologies (" ++ toString modernCount ++ " modern skills)"]
       else []) }

def degreeBonus (eduLower : String) : ℚ :=
  if strIn "phd" eduLower || strIn "doctorate" eduLower then 30
  else if strIn "masters" eduLower || strIn "mba" eduLower || strIn "msc" eduLower then 20
  else if strIn "bachelor" eduLower || strIn "bsc" eduLower || strIn "btech" eduLower then 10
  else 0

/-- `GrowthPotentialAnalyzer._assess_education_investment`. -/
def assessEducationInvestment (c : Candidate) (j : Job) : GComp :=
  let eduLower := strLower c.education_level
  let reqLower := strLower j.required_education
  let b1 := degreeBonus eduLower
  let b2 : ℚ := if strIn "masters" eduLower && strIn "bachelor" reqLower then 15 else 0
  let b3 : ℚ := if 1 < c.education_details.length then 10 else 0
  let b4 : ℚ := if c.specialization ≠ "" ∧ 3 < c.specialization.data.length then 5 else 0
  { score := min 100 (50 + b1 + b2 + b3 + b4),
    indicators :=
      (if strIn "phd" eduLower || strIn "doctorate" eduLower then
        ["PhD/Doctorate: Highest commitment to knowledge"]
       else if strIn "masters" eduLower || strIn "mba" eduLower || strIn "msc" eduLower then
        ["Master's degree: Advanced education investment"]
       else []) ++
      (if strIn "masters" eduLower && strIn "bachelor" reqLower then
        ["Education exceeds job requirement (growth mindset)"] else []) ++
      (if 1 < c.education_details.length then
        ["Multiple degrees (" ++ toString c.education_details.length ++
          ") shows continuous learning"]
       else []) }

def changeRateBonus (rate : ℚ) : ℚ :=
  if 3/10 ≤ rate ∧ rate ≤ 6/10 then 20
  else if 3/20 ≤ rate ∧ rate < 3/10 then 10
  else if 6/10 < rate then 5
  else 0

/-- `GrowthPotentialAnalyzer._assess_career_trajectory`. -/
def assessCareerTrajectory (c : Candidate) : GComp :=
  let exp := c.total_experience_years
  let hist := c.employment_history
  let rate := if 0 < exp ∧ hist ≠ [] then (hist.length : ℚ) / exp else 0
  let b1 : ℚ := if 0 < exp ∧ hist ≠ [] then changeRateBonus rate else 0
  let desigLower := strLower c.preferred_designation
  let hasLeadership := upwardKeywords.any (fun k => strIn k desigLower)
  let b2 : ℚ := if hasLeadership && decide (exp < 10) then 15
    else if hasLeadership then 10 else 0
  let industries :=
    ((hist.filter (fun e => e.industry != "")).map (fun e => strLower e.industry)).eraseDups
  let b3 : ℚ := if 3 ≤ industries.length then 15 else if 2 ≤ industries.length then 10 else 0
  { score := min 100 (50 + b1 + b2 + b3),
    indicators :=
      (if 0 < exp ∧ hist ≠ [] then
        (if 3/10 ≤ rate ∧ rate ≤ 6/10 then
          ["Healthy career progression rate (" ++ toString hist.length ++ " roles in " ++
            fmtNum exp ++ " years)"]
         else if 3/20 ≤ rate ∧ rate < 3/10 then ["Stable career progression"]
         else if 6/10 < rate then ["Fast-paced career movement"]
         else [])
       else []) ++
      (if hasLeadership && decide (exp < 10) then ["Fast track to leadership roles"]
       else if hasLeadership then ["Achieved leadership position"]
       else []) ++
      (if 3 ≤ industries.length then
        ["Cross-industry experience (" ++ toString industries.length ++ " industries)"]
       else if 2 ≤ industries.length then ["Multi-industry background"]
       else []) }

def certCountBonus (n : ℕ) : ℚ :=
  if 5 ≤ n then 20 else if 3 ≤ n then 15 else if 1 ≤ n then 10 else 0

def certName : CertEntry → String
  | .strCert s => strLower s
  | .dictCert _ name => strLower name

def premiumCertBonus (n : ℕ) : ℚ := if 2 ≤ n then 20 else if 1 ≤ n then 15 else 0

/-- `GrowthPotentialAnalyzer._assess_certifications_currency`. -/
def assessCertificationsCurrency (c : Candidate) : GComp :=
  let n := c.certifications.length
  let premiumCount := (c.certifications.filter
    (fun cert => premiumCerts.any (fun p => strIn p (certName cert)))).length
  { score := min 100 (50 + certCountBonus n + premiumCertBonus premiumCount),
    indicators :=
      (if 5 ≤ n then ["Highly certified (" ++ toString n ++ " certifications)"]
       else if 3 ≤ n then ["Well certified (" ++ toString n ++ " certifications)"]
       else []) ++
      (if 2 ≤ premiumCount then
        [toString premiumCount ++ " industry-recognized certifications"]
       else if 1 ≤ premiumCount then ["Industry-recognized certification"]
       else []) }

/-- `GrowthPotentialAnalyzer._assess_industry_adaptability`. -/
def assessIndustryAdaptability (c : Candidate) (_j : Job) : GComp :=
  let totalFunctional := c.professional_skills.length + c.functional_skills.length
  let b1 : ℚ := if 10 < totalFunctional then 15 else if 5 < totalFunctional then 10 else 0
  let nLangs := c.languages_known.length
  let b2 : ℚ := if 3 ≤ nLangs then 15 else if 2 ≤ nLangs then 10 else 0
  let b3 : ℚ :=
    if 0 < c.gcc_experience_years ∧ c.gcc_experience_years < c.total_experience_years
    then 15 else 0
  let skillsText := String.intercalate " "
    ((c.professional_skills ++ c.functional_skills).map strLower)
  let softCount := (softSkillsList.filter (fun s => strIn s skillsText)).length
  let b4 : ℚ := if 4 ≤ softCount then 10 else 0
  { score := min 100 (50 + b1 + b2 + b3 + b4),
    indicators :=
      (if 10 < totalFunctional then
        ["Versatile skill set (" ++ toString totalFunctional ++ " functional skills)"]
       else []) ++
      (if 3 ≤ nLangs then
        ["Multilingual (" ++ toString nLangs ++ " languages) - highly adaptable"]
       else if 2 ≤ nLangs then ["Bilingual capability"]
       else []) ++
      (if 0 < c.gcc_experience_years ∧ c.gcc_experience_years < c.total_experience_years
       then ["International work experience (adaptable to new markets)"] else []) ++
      (if 4 ≤ softCount then ["Strong soft skills (adaptable team player)"] else []) }

def fmt0 (x : ℚ) : String := toString (pyRound x)

/-- `GrowthPotentialAnalyzer._determine_tier` (the `indicator_count` argument
of the source is unused by its body). -/
def determineTier (growthScore currentScore : ℚ) : String × String :=
  if 75 ≤ growthScore then
    ("high_potential",
     "HIGH GROWTH POTENTIAL (" ++ fmt0 growthScore ++
       "/100) - Strong candidate for long-term investment. " ++
       "Exhibits exceptional learning ability and career trajectory. " ++
       "Consider for roles with growth runway.")
  else if 65 ≤ growthScore ∧ currentScore < 70 then
    ("high_potential",
     "HIDDEN GEM ALERT - Current fit " ++ fmt0 currentScore ++ "% but growth potential " ++
       fmt0 growthScore ++ "%. " ++
       "Candidate shows strong learning capacity and may exceed current limitations. " ++
       "Recommend for roles with training/mentorship.")
  else if 50 ≤ growthScore then
    ("standard",
     "STANDARD GROWTH POTENTIAL (" ++ fmt0 growthScore ++ "/100) - " ++
       "Candidate shows moderate learning ability and progression. " ++
       "Suitable for roles matching current capabilities.")
  else
    ("limited",
     "LIMITED GROWTH INDICATORS (" ++ fmt0 growthScore ++ "/100) - " ++
       "Candidate may be better suited for roles matching exact current skills. " ++
       "Limited evidence of continuous learning or career progression.")

structure GrowthPotential where
  growth_potential_score : ℚ
  learning_agility : ℚ
  career_trajectory_score : ℚ
  skill_acquisition_rate : ℚ
  adaptability_score : ℚ
  indicators : List String
  recommendation : String
  tier : String
deriving DecidableEq

/-- `GrowthPotentialAnalyzer.analyze`. -/
def analyzeGrowth (c : Candidate) (j : Job) (currentScore : ℚ) (currentYear : ℤ) :
    GrowthPotential :=
  let sa := assessSkillAcquisition c currentYear
  let ei := assessEducationInvestment c j
  let ct := assessCareerTrajectory c
  let cc := assessCertificationsCurrency c
  let ad := assessIndustryAdaptability c j
  let growthScore := sa.score * (25/100) + ei.score * (20/100) + ct.score * (25/100) +
    cc.score * (15/100) + ad.score * (15/100)
  let learningAgility := (sa.score + ad.score) / 2
  let allIndicators := sa.indicators ++ ei.indicators ++ ct.indicators ++
    cc.indicators ++ ad.indicators
  let tr := determineTier growthScore currentScore
  { growth_potential_score := round1 growthScore,
    learning_agility := round1 learningAgility,
    career_trajectory_score := round1 ct.score,
    skill_acquisition_rate := round1 sa.score,
    adaptability_score := round1 ad.score,
    indicators := allIndicators.take 8,
    recommendation := tr.2,
    tier := tr.1 }

/-! ## Smart Recommendation Engine (`core/scoring/smart_recommendation_engine.py`) -/

inductive HiringAction
  | immediate_interview
  | shortlist
  | waitlist
  | reject
  | hold_for_review
deriving DecidableEq

inductive Priority
  | critical
  | high
  | medium
  | low
  | none
deriving DecidableEq

structure ConfidenceInterval where
  point_estimate : ℚ
  lower_bound : ℚ
  upper_bound : ℚ
  margin_of_error : ℚ
  confidence_level : ℤ
deriving DecidableEq

/-- `CONFIDENCE_LEVELS.get(confidence_level, CONFIDENCE_LEVELS['medium'])`:
the nominal level and the margin multiplier. -/
def confLevelCfg (s : String) : ℤ × ℚ :=
  if s = "high" then (95, 1)
  else if s = "medium" then (90, 3/2)
  else if s = "low" then (80, 2)
  else (90, 3/2)

/-- `SmartRecommendationEngine._calculate_confidence_interval`. -/
def calcConfidenceInterval (score : ℚ) (confidenceLevel : String)
    (confidenceScore : ℚ) : ConfidenceInterval :=
  let cfg := confLevelCfg confidenceLevel
  let baseMargin : ℚ := 5
  let margin := baseMargin * (cfg.2 * (3/2 - confidenceScore))
  let lower := max 0 (score - margin)
  let upper := min 100 (score + margin)
  { point_estimate := round1 score, lower_bound := round1 lower,
    upper_bound := round1 upper, margin_of_error := round1 margin,
    confidence_level := cfg.1 }

/-- `SmartRecommendationEngine._determine_action_and_priority`.  `growthScore`
is the optional `growth_score` argument (`none` models Python `None`, and the
`growth_score and ...` truthiness test treats `0` as falsy). -/
def determineActionAndPriority (score : ℚ) (ci : ConfidenceInterval)
    (isRejected : Bool) (redFlagCount : ℕ) (growthScore : Option ℚ) :
    HiringAction × Priority :=
  if isRejected = true ∨ score < 40 then (.reject, .none)
  else if 3 ≤ redFlagCount then (.hold_for_review, .low)
  else
    let conservative := ci.lower_bound
    if (growthScore.getD 0 ≠ 0) ∧ 75 ≤ growthScore.getD 0 ∧ 65 ≤ score then
      (.shortlist, .high)
    else if 80 ≤ score ∧ 75 ≤ conservative then (.immediate_interview, .critical)
    else if 80 ≤ score ∧ redFlagCount = 0 then (.immediate_interview, .high)
    else if 70 ≤ score ∧ 65 ≤ conservative then (.shortlist, .high)
    else if 70 ≤ score ∧ redFlagCount ≤ 1 then (.shortlist, .medium)
    else if 60 ≤ score ∧ 55 ≤ conservative then (.waitlist, .medium)
    else if 60 ≤ score then (.waitlist, .low)
    else (.reject, .none)

/-! ## ML engine service (`backend/apps/assessments/ml_engine_service.py`)

`MLEngineService.evaluate_candidate`, projected onto the result fields the
rejection contract concerns (`total_score`, `raw_score`, `is_rejected`,
`rejection_reasons`, `rejection_rule_code`).  The data-completeness validator
outputs and the hard-rejection engine outcome are inputs here: the validator
runs upstream of the cited code, and the hard-rejection engine
(`core/rules/hard_rejection_engine.py`) is not among the sources, so its
result is modelled from the spec as a `RejectionOutcome` whose
`rejection_reason` ("" models a falsy Python value) and rule code the spec
requires to identify the first failing rule. -/

structure RejectionOutcome where
  is_eligible : Bool
  rejection_reason : String
  rejection_rule_code : String
deriving DecidableEq

structure ServiceResult where
  total_score : ℚ
  raw_score : ℤ
  is_rejected : Bool
  rejection_reasons : List String
  rejection_rule_code : Option String
deriving DecidableEq

def lookupSectionScore (sections : List SectionA) (name : String) : ℤ :=
  ((sections.find? (fun s => s.section_name == name)).map (fun s => s.total_score)).getD 0

/-- `MLEngineService.evaluate_candidate`. -/
def evaluateCandidate (candValid jobValid : Bool) (candCritical jobCritical : List String)
    (rej : RejectionOutcome) (c : Candidate) (j : Job) (now : String) : ServiceResult :=
  if candValid = false ∨ jobValid = false then
    let missingFields := candCritical.map (fun m => "CANDIDATE: " ++ m) ++
      jobCritical.map (fun m => "JOB: " ++ m)
    { total_score := 0, raw_score := 0, is_rejected := true,
      rejection_reasons :=
        ["INSUFFICIENT DATA FOR ASSESSMENT - Missing " ++
          toString missingFields.length ++ " critical field(s)"],
      rejection_rule_code := some "DATA_INCOMPLETE" }
  else
    let isHardRejected := !rej.is_eligible
    let hardReasons := if rej.rejection_reason ≠ "" then [rej.rejection_reason] else []
    let comp := assess c j c.cv_text now
    let skillsScore := lookupSectionScore comp.sections "skills"
    let expScore := lookupSectionScore comp.sections "experience"
    let cvScore := (comp.cv_assessment.map (fun a => a.cv_score)).getD 0
    let totalAdjustment : ℤ :=
      (if 80 ≤ comp.total_score ∧ 90 ≤ skillsScore then 3 else 0) +
      (if 85 ≤ expScore then 2 else 0) +
      (if comp.cv_assessment.isSome ∧ 80 ≤ cvScore then 2 else 0)
    let adjusted : ℤ :=
      if isHardRejected then 0 else min 100 (max 0 (comp.total_score + totalAdjustment))
    let allReasons :=
      if isHardRejected then hardReasons ++ comp.rejection_reasons
      else comp.rejection_reasons
    { total_score := round1 (adjusted : ℚ),
      raw_score := comp.total_score,
      is_rejected := isHardRejected || comp.is_rejected,
      rejection_reasons := allReasons,
      rejection_rule_code := if isHardRejected then some rej.rejection_rule_code else none }

/-! ## Helper lemmas -/

theorem round1_ge_of_ge (x : ℚ) (n : ℤ) (h : (n : ℚ) ≤ x) : (n : ℚ) ≤ round1 x := by
  unfold round1
  have h10 : ((10 * n : ℤ) : ℚ) ≤ 10 * x := by push_cast; linarith
  have := pyRound_ge_of_ge (10 * x) (10 * n) h10
  have hc : ((10 * n : ℤ) : ℚ) ≤ (pyRound (10 * x) : ℚ) := by exact_mod_cast this
  push_cast at hc
  linarith

theorem confMult_ge_one (s : String) : 1 ≤ (confLevelCfg s).2 := by
  unfold confLevelCfg
  split_ifs <;> norm_num

/-- C6: the confidence interval of
`SmartRecommendationEngine._calculate_confidence_interval` is ordered
(`lower_bound ≤ point_estimate ≤ upper_bound`) with both bounds inside
`[0, 100]`, for every score in `[0, 100]`, every categorical confidence level
string, and every confidence score in `[0, 1]`. -/
theorem c6_confidence_interval_ordered (score cs : ℚ) (lvl : String)
    (h0 : 0 ≤ score) (h100 : score ≤ 100) (hc0 : 0 ≤ cs) (hc1 : cs ≤ 1) :
    0 ≤ (calcConfidenceInterval score lvl cs).lower_bound ∧
    (calcConfidenceInterval score lvl cs).lower_bound ≤
      (calcConfidenceInterval score lvl cs).point_estimate ∧
    (calcConfidenceInterval score lvl cs).point_estimate ≤
      (calcConfidenceInterval score lvl cs).upper_bound ∧
    (calcConfidenceInterval score lvl cs).lower_bound ≤ 100 ∧
    0 ≤ (calcConfidenceInterval score lvl cs).upper_bound ∧
    (calcConfidenceInterval score lvl cs).upper_bound ≤ 100 := by
  have hm := confMult_ge_one lvl
  unfold calcConfidenceInterval
  set mult := (confLevelCfg lvl).2 with hmult
  set m : ℚ := 5 * (mult * (3/2 - cs)) with hmdef
  have hm52 : 5/2 ≤ m := by
    have h1 : (1:ℚ)/2 ≤ 3/2 - cs := by linarith
    have h2 : 1 * (1/2 : ℚ) ≤ mult * (3/2 - cs) := by
      apply mul_le_mul hm h1 (by norm_num) (by linarith)
    rw [hmdef]; linarith
  simp only
  have hlow0 : (0:ℚ) ≤ max 0 (score - m) := le_max_left 0 _
  have hlow_le : max 0 (score - m) ≤ 100 := by
    apply max_le (by norm_num); linarith
  have hup0 : (0:ℚ) ≤ min 100 (score + m) := by
    apply le_min (by norm_num); linarith
  have hup_le : min 100 (score + m) ≤ 100 := min_le_left 100 _
  refine ⟨round1_nonneg _ hlow0, ?_, ?_, ?_, round1_nonneg _ hup0, ?_⟩
  · -- lower ≤ point
    rcases le_or_lt (score - m) 0 with h | h
    · have : max 0 (score - m) = 0 := max_eq_left h
      rw [this]
      have hz : round1 0 = 0 := by norm_num [round1, pyRound]
      rw [hz]
      exact round1_nonneg _ h0
    · have : max 0 (score - m) = score - m := max_eq_right (le_of_lt h)
      rw [this]
      have h1 := round1_le (score - m)
      have h2 := round1_ge score
      linarith
  · -- point ≤ upper
    rcases le_or_lt 100 (score + m) with h | h
    · have : min 100 (score + m) = 100 := min_eq_left h
      rw [this]
      have h1 : round1 (100 : ℚ) = ((100 : ℤ) : ℚ) / 1 := by
        norm_num [round1, pyRound]
      have h2 : round1 score ≤ ((100 : ℤ) : ℚ) := round1_le_of_le score 100 (by exact_mod_cast h100)
      rw [h1]; push_cast; push_cast at h2; linarith
    · have : min 100 (score + m) = score + m := min_eq_right (le_of_lt h)
      rw [this]
      have h1 := round1_ge (score + m)
      have h2 := round1_le score
      linarith
  · exact round1_le_of_le _ 100 (by exact_mod_cast hlow_le)
  · exact round1_le_of_le _ 100 (by exact_mod_cast hup_le)

/-- C6 witness at score 80, level `"high"`, confidence score 0.9. -/
theorem c6_confidence_interval_witness :
    0 ≤ (calcConfidenceInterval 80 "high" (9/10)).lower_bound ∧
    (calcConfidenceInterval 80 "high" (9/10)).lower_bound ≤
      (calcConfidenceInterval 80 "high" (9/10)).point_estimate ∧
    (calcConfidenceInterval 80 "high" (9/10)).point_estimate ≤
      (calcConfidenceInterval 80 "high" (9/10)).upper_bound ∧
    (calcConfidenceInterval 80 "high" (9/10)).lower_bound ≤ 100 ∧
    0 ≤ (calcConfidenceInterval 80 "high" (9/10)).upper_bound ∧
    (calcConfidenceInterval 80 "high" (9/10)).upper_bound ≤ 100 :=
  c6_confidence_interval_ordered 80 (9/10) "high" (by norm_num) (by norm_num)
    (by norm_num) (by norm_num)

/-- C3 counterexample: with 3 red flags but a score below 40 (and no hard
rejection), `_determine_action_and_priority` returns REJECT, not
HOLD_FOR_REVIEW — the hard-reject gate precedes the red-flag gate, so the
"regardless of score" part of the claim fails. -/
theorem c3_counterexample :
    (determineActionAndPriority 30 (calcConfidenceInterval 30 "medium" (7/10))
      false 3 none).1 = HiringAction.reject ∧
    HiringAction.reject ≠ HiringAction.hold_for_review := by
  constructor
  · unfold determineActionAndPriority
    rw [if_pos (by norm_num : (false = true ∨ (30:ℚ) < 40))]
  · decide

/-- C3 amended: whenever the assessment is not already rejected and the score
is at least 40, three or more red flags force HOLD_FOR_REVIEW (with LOW
priority), regardless of the confidence interval and growth score. -/
theorem c3_hold_for_review (score : ℚ) (ci : ConfidenceInterval) (flags : ℕ)
    (gs : Option ℚ) (hscore : 40 ≤ score) (hflags : 3 ≤ flags) :
    determineActionAndPriority score ci false flags gs =
      (HiringAction.hold_for_review, Priority.low) := by
  unfold determineActionAndPriority
  rw [if_neg, if_pos hflags]
  rintro (h | h)
  · exact absurd h (by simp)
  · linarith

/-- C3 witness: score 95 with 3 red flags is held for review. -/
theorem c3_hold_for_review_witness :
    determineActionAndPriority 95 ⟨95, 90, 100, 5, 95⟩ false 3 none =
      (HiringAction.hold_for_review, Priority.low) :=
  c3_hold_for_review 95 ⟨95, 90, 100, 5, 95⟩ 3 none (by norm_num) (by norm_num)

/-! Growth-potential component bounds (used by C9 and C2). -/

theorem skillCountBonus_bounds (n : ℕ) : 0 ≤ skillCountBonus n ∧ skillCountBonus n ≤ 20 := by
  unfold skillCountBonus; split_ifs <;> norm_num

theorem recentCertBonus_bounds (n : ℕ) : 0 ≤ recentCertBonus n ∧ recentCertBonus n ≤ 15 := by
  unfold recentCertBonus; split_ifs <;> norm_num

theorem modernTechBonus_bounds (n : ℕ) : 0 ≤ modernTechBonus n ∧ modernTechBonus n ≤ 15 := by
  unfold modernTechBonus; split_ifs <;> norm_num

theorem gcomp_sa_bounds (c : Candidate) (y : ℤ) :
    50 ≤ (assessSkillAcquisition c y).score ∧ (assessSkillAcquisition c y).score ≤ 100 := by
  unfold assessSkillAcquisition
  simp only
  obtain ⟨h1, _⟩ := skillCountBonus_bounds (c.skills.length + c.it_skills.length)
  obtain ⟨h2, _⟩ := recentCertBonus_bounds ((c.certifications.filter (isRecentCert y)).length)
  obtain ⟨h3, _⟩ :=
    modernTechBonus_bounds (((c.skills ++ c.it_skills).filter
      (fun s => modernTech.any (fun t => strIn t (strLower s)))).length)
  constructor
  · apply le_min (by norm_num); linarith
  · exact min_le_left _ _

theorem degreeBonus_bounds (s : String) : 0 ≤ degreeBonus s ∧ degreeBonus s ≤ 30 := by
  unfold degreeBonus; split_ifs <;> norm_num

theorem gcomp_ei_bounds (c : Candidate) (j : Job) :
    50 ≤ (assessEducationInvestment c j).score ∧
    (assessEducationInvestment c j).score ≤ 100 := by
  unfold assessEducationInvestment
  simp only
  obtain ⟨h1, _⟩ := degreeBonus_bounds (strLower c.education_level)
  constructor
  · apply le_min (by norm_num)
    have h2 : (0:ℚ) ≤ if strIn "masters" (strLower c.education_level) &&
        strIn "bachelor" (strLower j.required_education) then 15 else 0 := by
      split_ifs <;> norm_num
    have h3 : (0:ℚ) ≤ if 1 < c.education_details.length then 10 else 0 := by
      split_ifs <;> norm_num
    have h4 : (0:ℚ) ≤ if c.specialization ≠ "" ∧ 3 < c.specialization.data.length
        then 5 else 0 := by split_ifs <;> norm_num
    linarith
  · exact min_le_left _ _

theorem changeRateBonus_bounds (r : ℚ) : 0 ≤ changeRateBonus r ∧ changeRateBonus r ≤ 20 := by
  unfold changeRateBonus; split_ifs <;> norm_num

theorem gcomp_ct_bounds (c : Candidate) :
    50 ≤ (assessCareerTrajectory c).score ∧ (assessCareerTrajectory c).score ≤ 100 := by
  have hcrb := fun q : ℚ => (changeRateBonus_bounds q).1
  unfold assessCareerTrajectory
  simp only
  constructor
  · apply le_min (by norm_num)
    split_ifs <;>
      first
        | linarith [hcrb ((c.employment_history.length : ℚ) / c.total_experience_years)]
        | linarith [hcrb (0 : ℚ)]
  · exact min_le_left _ _

theorem certCountBonus_bounds (n : ℕ) : 0 ≤ certCountBonus n ∧ certCountBonus n ≤ 20 := by
  unfold certCountBonus; split_ifs <;> norm_num

theorem premiumCertBonus_bounds (n : ℕ) : 0 ≤ premiumCertBonus n ∧ premiumCertBonus n ≤ 20 := by
  unfold premiumCertBonus; split_ifs <;> norm_num

theorem gcomp_cc_bounds (c : Candidate) :
    50 ≤ (assessCertificationsCurrency c).score ∧
    (assessCertificationsCurrency c).score ≤ 100 := by
  unfold assessCertificationsCurrency
  simp only
  obtain ⟨h1, _⟩ := certCountBonus_bounds c.certifications.length
  obtain ⟨h2, _⟩ := premiumCertBonus_bounds ((c.certifications.filter
    (fun cert => premiumCerts.any (fun p => strIn p (certName cert)))).length)
  constructor
  · apply le_min (by norm_num); linarith
  · exact min_le_left _ _

theorem gcomp_ad_bounds (c : Candidate) (j : Job) :
    50 ≤ (assessIndustryAdaptability c j).score ∧
    (assessIndustryAdaptability c j).score ≤ 100 := by
  unfold assessIndustryAdaptability
  simp only
  constructor
  · apply le_min (by norm_num)
    have h1 : (0:ℚ) ≤ if 10 < c.professional_skills.length + c.functional_skills.length
        then 15 else if 5 < c.professional_skills.length + c.functional_skills.length
        then 10 else 0 := by split_ifs <;> norm_num
    have h2 : (0:ℚ) ≤ if 3 ≤ c.languages_known.length then 15
        else if 2 ≤ c.languages_known.length then 10 else 0 := by split_ifs <;> norm_num
    have h3 : (0:ℚ) ≤ if 0 < c.gcc_experience_years ∧
        c.gcc_experience_years < c.total_experience_years then 15 else 0 := by
      split_ifs <;> norm_num
    have h4 : (0:ℚ) ≤ if 4 ≤ (softSkillsList.filter (fun s => strIn s
        (String.intercalate " " ((c.professional_skills ++ c.functional_skills).map
          strLower)))).length then 10 else 0 := by split_ifs <;> norm_num
    linarith
  · exact min_le_left _ _

theorem determineTier_ne_limited (g cs : ℚ) (h : 50 ≤ g) :
    (determineTier g cs).1 ≠ "limited" := by
  unfold determineTier
  split_ifs <;> simp <;> omega

/-- C9: every growth-potential component starts from a 50 baseline and only
accrues bonuses capped at 100, so each of the five component sub-scores, the
four rounded sub-scores in the returned object and the combined
`growth_potential_score` are at least 50 — hence
`GrowthPotentialAnalyzer.analyze` never returns the `'limited'` tier. -/
theorem c9_growth_floor (c : Candidate) (j : Job) (cur : ℚ) (year : ℤ) :
    50 ≤ (assessSkillAcquisition c year).score ∧
    50 ≤ (assessEducationInvestment c j).score ∧
    50 ≤ (assessCareerTrajectory c).score ∧
    50 ≤ (assessCertificationsCurrency c).score ∧
    50 ≤ (assessIndustryAdaptability c j).score ∧
    50 ≤ (analyzeGrowth c j cur year).growth_potential_score ∧
    50 ≤ (analyzeGrowth c j cur year).learning_agility ∧
    50 ≤ (analyzeGrowth c j cur year).career_trajectory_score ∧
    50 ≤ (analyzeGrowth c j cur year).skill_acquisition_rate ∧
    50 ≤ (analyzeGrowth c j cur year).adaptability_score ∧
    (analyzeGrowth c j cur year).tier ≠ "limited" := by
  obtain ⟨hsa, hsa'⟩ := gcomp_sa_bounds c year
  obtain ⟨hei, hei'⟩ := gcomp_ei_bounds c j
  obtain ⟨hct, hct'⟩ := gcomp_ct_bounds c
  obtain ⟨hcc, hcc'⟩ := gcomp_cc_bounds c
  obtain ⟨had, had'⟩ := gcomp_ad_bounds c j
  have hg : (50:ℚ) ≤ (assessSkillAcquisition c year).score * (25/100) +
      (assessEducationInvestment c j).score * (20/100) +
      (assessCareerTrajectory c).score * (25/100) +
      (assessCertificationsCurrency c).score * (15/100) +
      (assessIndustryAdaptability c j).score * (15/100) := by linarith
  have hla : (50:ℚ) ≤ ((assessSkillAcquisition c year).score +
      (assessIndustryAdaptability c j).score) / 2 := by linarith
  refine ⟨hsa, hei, hct, hcc, had, ?_, ?_, ?_, ?_, ?_, ?_⟩
  · exact round1_ge_of_ge _ 50 hg
  · exact round1_ge_of_ge _ 50 hla
  · exact round1_ge_of_ge _ 50 hct
  · exact round1_ge_of_ge _ 50 hsa
  · exact round1_ge_of_ge _ 50 had
  · exact determineTier_ne_limited _ _ hg

/-- C1: every evaluation rejected for missing critical data
(`DATA_INCOMPLETE`) or by the hard-rejection engine returns
`total_score = 0` and a non-empty `rejection_reasons` list.  The
hard-rejection engine is not among the sources; per its spec an ineligible
outcome carries the first failing rule's reason (`hreason`). -/
theorem c1_rejected_zero_score (candValid jobValid : Bool)
    (candCritical jobCritical : List String) (rej : RejectionOutcome)
    (c : Candidate) (j : Job) (now : String)
    (hreason : rej.is_eligible = false → rej.rejection_reason ≠ "")
    (hrej : (candValid = false ∨ jobValid = false) ∨ rej.is_eligible = false) :
    (evaluateCandidate candValid jobValid candCritical jobCritical rej c j now).total_score
      = 0 ∧
    (evaluateCandidate candValid jobValid candCritical jobCritical rej c j now).rejection_reasons
      ≠ [] := by
  by_cases h : candValid = false ∨ jobValid = false
  · simp only [evaluateCandidate, if_pos h]
    exact ⟨by simp, by simp⟩
  · have hel : rej.is_eligible = false := by
      rcases hrej with h1 | h2
      · exact absurd h1 h
      · exact h2
    simp only [evaluateCandidate, if_neg h, hel]
    constructor
    · norm_num [round1, pyRound]
    · rw [if_pos (hreason hel)]
      simp

/-- C1 witness: a hard-rejected run (valid data, ineligible candidate). -/
theorem c1_rejected_zero_score_witness :
    (evaluateCandidate true true [] [] ⟨false, "Below minimum experience", "MIN_EXPERIENCE"⟩
      {} {} "2026-01-07T10:00:00").total_score = 0 ∧
    (evaluateCandidate true true [] [] ⟨false, "Below minimum experience", "MIN_EXPERIENCE"⟩
      {} {} "2026-01-07T10:00:00").rejection_reasons ≠ [] :=
  c1_rejected_zero_score true true [] []
    ⟨false, "Below minimum experience", "MIN_EXPERIENCE"⟩ {} {} "2026-01-07T10:00:00"
    (fun _ => by decide) (Or.inr rfl)

/-- C8 counterexample: `assess` stamps `datetime.now().isoformat()` into the
result, so two runs of the pipeline at different clock readings return
different assessment objects even for identical inputs and configuration. -/
theorem c8_timestamp_counterexample :
    (assess {} {} "" "2026-01-07T10:00:00").timestamp = "2026-01-07T10:00:00" ∧
    (assess {} {} "" "2026-01-07T10:00:01").timestamp = "2026-01-07T10:00:01" ∧
    assess {} {} "" "2026-01-07T10:00:00" ≠ assess {} {} "" "2026-01-07T10:00:01" := by
  refine ⟨rfl, rfl, fun h => ?_⟩
  have h3 : ("2026-01-07T10:00:00" : String) = "2026-01-07T10:00:01" :=
    congrArg CompResult.timestamp h
  exact absurd h3 (by decide)

/-- C8 amended: apart from the clock-derived `timestamp` field the non-mock
comprehensive assessment is a deterministic function of its inputs — two runs
on the same candidate, job and CV text agree on every other field. -/
theorem c8_deterministic_modulo_timestamp (c : Candidate) (j : Job)
    (cv t1 t2 : String) :
    { assess c j cv t1 with timestamp := "" } =
      { assess c j cv t2 with timestamp := "" } := rfl

/-! C7 infrastructure: every match returned by `_match_single_skill` carries
the job skill it was asked about, so `match_skills` partitions the job's
skill lists into matched and missing. -/

theorem synStep_fst_job_skill (t : SkillTaxonomy) (js jn jc cs : String) (r : Bool)
    (st : Option SkillMatch × ℚ) (hb : ∀ m, st.1 = some m → m.job_skill = js) :
    ∀ m, (synStep t js jn jc cs r st).1 = some m → m.job_skill = js := by
  intro m hm
  unfold synStep at hm
  split_ifs at hm
  · injection hm with h; subst h; rfl
  · exact hb m hm

theorem semStep_fst_job_skill (t : SkillTaxonomy) (js jc cs : String) (r : Bool)
    (st : Option SkillMatch × ℚ) (hb : ∀ m, st.1 = some m → m.job_skill = js) :
    ∀ m, (semStep t js jc cs r st).1 = some m → m.job_skill = js := by
  intro m hm
  unfold semStep at hm
  simp only at hm
  split_ifs at hm
  · injection hm with h; subst h; rfl
  · exact hb m hm

theorem catStep_fst_job_skill (t : SkillTaxonomy) (js jc cs : String) (r : Bool)
    (st : Option SkillMatch × ℚ) (hb : ∀ m, st.1 = some m → m.job_skill = js) :
    ∀ m, (catStep t js jc cs r st).1 = some m → m.job_skill = js := by
  intro m hm
  unfold catStep at hm
  simp only at hm
  split_ifs at hm
  · injection hm with h; subst h; rfl
  · exact hb m hm

theorem strategyStep_fst_job_skill (t : SkillTaxonomy) (js jn jc cs : String)
    (r : Bool) (best : Option SkillMatch) (bc : ℚ)
    (hb : ∀ m, best = some m → m.job_skill = js) :
    ∀ m, (strategyStep t js jn jc cs r best bc).1 = some m → m.job_skill = js := by
  unfold strategyStep
  exact catStep_fst_job_skill t js jc cs r _
    (semStep_fst_job_skill t js jc cs r _
      (synStep_fst_job_skill t js jn jc cs r _ hb))

theorem msLoop_job_skill (t : SkillTaxonomy) (js jn jc : String) (r : Bool) :
    ∀ (l : List String) (best : Option SkillMatch) (bc : ℚ),
      (∀ m, best = some m → m.job_skill = js) →
      ∀ m, msLoop t js jn jc r l best bc = some m → m.job_skill = js := by
  intro l
  induction l with
  | nil =>
    intro best bc hb m hm
    exact hb m hm
  | cons cs rest ih =>
    intro best bc hb m hm
    rw [msLoop] at hm
    split_ifs at hm with hex
    · injection hm with h; subst h; rfl
    · exact ih _ _ (strategyStep_fst_job_skill t js jn jc cs r best bc hb) m hm

theorem matchSingleSkill_job_skill (t : SkillTaxonomy) (js : String)
    (cands : List String) (r : Bool) :
    ∀ m, matchSingleSkill t js cands r = some m → m.job_skill = js :=
  msLoop_job_skill t js _ _ r cands none 0 (fun _ h => by cases h)

theorem partitionMatches_perm (t : SkillTaxonomy) (cands : List String) (r : Bool) :
    ∀ l : List String,
      List.Perm
        ((partitionMatches t cands r l).1.map (fun m => m.job_skill) ++
          (partitionMatches t cands r l).2) l := by
  intro l
  induction l with
  | nil => simp [partitionMatches]
  | cons js rest ih =>
    rw [partitionMatches]
    cases hms : matchSingleSkill t js cands r with
    | some m =>
      simp only [hms, List.map_cons, List.cons_append]
      rw [matchSingleSkill_job_skill t js cands r m hms]
      exact ih.cons js
    | none =>
      simp only [hms]
      exact List.perm_middle.trans (ih.cons js)

theorem partitionMatches_length (t : SkillTaxonomy) (cands : List String) (r : Bool) :
    ∀ l : List String,
      (partitionMatches t cands r l).1.length + (partitionMatches t cands r l).2.length
        = l.length := by
  intro l
  induction l with
  | nil => simp [partitionMatches]
  | cons js rest ih =>
    rw [partitionMatches]
    cases hms : matchSingleSkill t js cands r with
    | some m => simp only [hms, List.length_cons]; omega
    | none => simp only [hms, List.length_cons]; omega

/-- C7: `match_skills` partitions the job's skill lists — the matched
required skills plus the missing required skills are a permutation of the
job's required skills, their counts sum to `total_required_skills`, and
likewise for the preferred skills. -/
theorem c7_matched_missing_partition (t : SkillTaxonomy)
    (req pref cands : List String) :
    List.Perm
      ((matchSkills t req pref cands).matched_required.map (fun m => m.job_skill) ++
        (matchSkills t req pref cands).missing_required) req ∧
    (matchSkills t req pref cands).matched_required.length +
      (matchSkills t req pref cands).missing_required.length =
      (matchSkills t req pref cands).total_required_skills ∧
    List.Perm
      ((matchSkills t req pref cands).matched_preferred.map (fun m => m.job_skill) ++
        (matchSkills t req pref cands).missing_preferred) pref ∧
    (matchSkills t req pref cands).matched_preferred.length +
      (matchSkills t req pref cands).missing_preferred.length =
      (matchSkills t req pref cands).total_preferred_skills := by
  simp only [matchSkills]
  split_ifs <;>
    first
      | exact ⟨partitionMatches_perm t cands true req,
          partitionMatches_length t cands true req,
          partitionMatches_perm t cands false pref,
          partitionMatches_length t cands false pref⟩
      | simp

/-- A concrete taxonomy configuration (no synonyms, semantic and category
matching disabled) used for concrete evaluations. -/
def exTax : SkillTaxonomy :=
  { synonymToCanonical := [], skillToCategory := [], skillToRelationships := [],
    exclusions := [], exactWeight := 1, synonymWeight := 1, semanticWeight := 9/10,
    categoryWeight := 7/10, enableSynonym := true, enableSemantic := false,
    enableCategory := false, semanticThreshold := 3/4, stripSpecialChars := true,
    hasEmbeddingModel := false, sim := fun _ _ => 0 }

/-- C10 counterexample: a job with no required skills but one preferred skill,
evaluated against a candidate with no skills, hits the no-skills edge case of
`match_skills` and returns `required_match_score = 0.0`, not 100.0. -/
theorem c10_counterexample :
    (matchSkills exTax [] ["python"] []).total_required_skills = 0 ∧
    (matchSkills exTax [] ["python"] []).required_match_score = 0 ∧
    (0 : ℚ) ≠ 100 := by
  refine ⟨?_, ?_, by norm_num⟩ <;>
    · unfold matchSkills
      rw [if_pos ⟨rfl, Or.inr (by norm_num)⟩]
      try rfl

/-- C10 amended: with no required skills, `required_match_score` is 100.0
except in the no-skills edge case (candidate skills empty and some preferred
skill present), where it is 0.0; symmetrically for `preferred_match_score`;
and a job with both lists empty yields `overall_skill_score = 100` for every
candidate. -/
theorem c10_no_required_skills (t : SkillTaxonomy) (req pref cands : List String) :
    (req = [] → (cands ≠ [] ∨ pref = []) →
      (matchSkills t req pref cands).required_match_score = 100) ∧
    (pref = [] → (cands ≠ [] ∨ req = []) →
      (matchSkills t req pref cands).preferred_match_score = 100) ∧
    (req = [] → pref = [] →
      (matchSkills t req pref cands).overall_skill_score = 100) := by
  refine ⟨?_, ?_, ?_⟩
  · rintro rfl h2
    unfold matchSkills
    rw [if_neg]
    · simp
    · rintro ⟨hc, hcnt⟩
      rcases h2 with h | rfl
      · exact h hc
      · simp at hcnt
  · rintro rfl h2
    unfold matchSkills
    rw [if_neg]
    · simp
    · rintro ⟨hc, hcnt⟩
      rcases h2 with h | rfl
      · exact h hc
      · simp at hcnt
  · rintro rfl rfl
    unfold matchSkills
    rw [if_neg]
    · norm_num
    · rintro ⟨_, hcnt⟩
      simp at hcnt

/-- C10 witness for the amended statement. -/
theorem c10_no_required_skills_witness :
    (matchSkills exTax [] ["python"] ["java"]).required_match_score = 100 ∧
    (matchSkills exTax [] [] []).overall_skill_score = 100 :=
  ⟨(c10_no_required_skills exTax [] ["python"] ["java"]).1 rfl (Or.inl (by simp)),
   (c10_no_required_skills exTax [] [] []).2.2 rfl rfl⟩

/-! C4/C2 infrastructure: case analysis of the strategy-2..4 state update. -/

theorem semanticSimilarity_le_one (t : SkillTaxonomy) (a b : String)
    (hsim : ∀ x y, t.sim x y ≤ 1) : semanticSimilarity t a b ≤ 1 := by
  unfold semanticSimilarity
  split_ifs <;> first | apply hsim | norm_num



theorem synStep_keep (t : SkillTaxonomy) (js jn jc cs : String) (r : Bool)
    (st : Option SkillMatch × ℚ) (h : jc ≠ getCanonicalSkill t cs) :
    synStep t js jn jc cs r st = st := by
  unfold synStep
  rw [if_neg]
  rintro ⟨_, hc, _, _⟩
  exact h hc

theorem synStep_locked (t : SkillTaxonomy) (js jn jc cs : String) (r : Bool)
    (st : Option SkillMatch × ℚ) (h : 95/100 ≤ st.2) :
    synStep t js jn jc cs r st = st := by
  unfold synStep
  rw [if_neg]
  rintro ⟨_, _, _, hlt⟩
  linarith

theorem semStep_locked (t : SkillTaxonomy) (js jc cs : String) (r : Bool)
    (st : Option SkillMatch × ℚ) (hsim : ∀ a b, t.sim a b ≤ 1)
    (h : 95/100 ≤ st.2) : semStep t js jc cs r st = st := by
  unfold semStep
  simp only
  rw [if_neg]
  rintro ⟨_, _, hlt⟩
  have h1 := semanticSimilarity_le_one t js cs hsim
  have h2 : semanticSimilarity t js cs * (85/100) ≤ 1 * (85/100) :=
    mul_le_mul_of_nonneg_right h1 (by norm_num)
  linarith

theorem catStep_locked (t : SkillTaxonomy) (js jc cs : String) (r : Bool)
    (st : Option SkillMatch × ℚ) (h : 7/10 ≤ st.2) :
    catStep t js jc cs r st = st := by
  unfold catStep
  simp only
  rw [if_neg]
  rintro ⟨_, _, hlt⟩
  linarith

/-- Once the best confidence is the synonym confidence 0.95, no later
strategy can override it (semantic confidence is capped at 0.85 by the
cosine-similarity bound, category at 0.70). -/
theorem strategyStep_locked (t : SkillTaxonomy) (js jn jc cs : String) (r : Bool)
    (best : Option SkillMatch) (hsim : ∀ a b, t.sim a b ≤ 1) :
    strategyStep t js jn jc cs r best (95/100) = (best, 95/100) := by
  unfold strategyStep
  rw [synStep_locked t js jn jc cs r _ (by norm_num),
    semStep_locked t js jc cs r _ hsim (by norm_num),
    catStep_locked t js jc cs r _ (by norm_num)]

theorem semStep_snd_lt (t : SkillTaxonomy) (js jc cs : String) (r : Bool)
    (st : Option SkillMatch × ℚ) (hsim : ∀ a b, t.sim a b ≤ 1)
    (h : st.2 < 95/100) : (semStep t js jc cs r st).2 < 95/100 := by
  unfold semStep
  simp only
  split_ifs
  · have h1 := semanticSimilarity_le_one t js cs hsim
    have h2 : semanticSimilarity t js cs * (85/100) ≤ 1 * (85/100) :=
      mul_le_mul_of_nonneg_right h1 (by norm_num)
    simp only
    linarith
  · exact h

theorem catStep_snd_lt (t : SkillTaxonomy) (js jc cs : String) (r : Bool)
    (st : Option SkillMatch × ℚ) (h : st.2 < 95/100) :
    (catStep t js jc cs r st).2 < 95/100 := by
  unfold catStep
  simp only
  split_ifs
  · norm_num
  · exact h

/-- A candidate skill with the job skill's canonical form (and a different
normalized form) installs the 0.95 synonym match. -/
theorem strategyStep_syn_triggers (t : SkillTaxonomy) (js jn jc cs : String)
    (r : Bool) (best : Option SkillMatch) (bc : ℚ)
    (hsim : ∀ a b, t.sim a b ≤ 1) (hen : t.enableSynonym = true)
    (hcanon : jc = getCanonicalSkill t cs) (hnorm : jn ≠ normalizeSkill t cs)
    (hbc : bc < 95/100) :
    strategyStep t js jn jc cs r best bc =
      (some ⟨js, cs, "synonym", 95/100, t.synonymWeight, r,
        lookupStr t.skillToCategory jc⟩, 95/100) := by
  unfold strategyStep
  have h1 : synStep t js jn jc cs r (best, bc) =
      (some ⟨js, cs, "synonym", 95/100, t.synonymWeight, r,
        lookupStr t.skillToCategory jc⟩, 95/100) := by
    unfold synStep
    rw [if_pos ⟨hen, hcanon, hnorm, hbc⟩]
  rw [h1, semStep_locked t js jc cs r _ hsim (by norm_num),
    catStep_locked t js jc cs r _ (by norm_num)]

theorem msLoop_locked (t : SkillTaxonomy) (js jn jc : String) (r : Bool)
    (hsim : ∀ a b, t.sim a b ≤ 1) :
    ∀ (l : List String) (best : Option SkillMatch),
      (∀ cs ∈ l, normalizeSkill t cs ≠ jn) →
      msLoop t js jn jc r l best (95/100) = best := by
  intro l
  induction l with
  | nil => intro best _; rfl
  | cons cs rest ih =>
    intro best hne
    rw [msLoop, if_neg (hne cs (List.mem_cons_self cs rest)),
      strategyStep_locked t js jn jc cs r best hsim]
    exact ih best (fun x hx => hne x (List.mem_cons_of_mem cs hx))

theorem msLoop_exact (t : SkillTaxonomy) (js jn jc : String) (r : Bool) :
    ∀ (l : List String) (best : Option SkillMatch) (bc : ℚ),
      (∃ cs ∈ l, normalizeSkill t cs = jn) →
      ∃ m, msLoop t js jn jc r l best bc = some m ∧ m.match_type = "exact" ∧
        m.confidence = 1 ∧ m.weight = t.exactWeight ∧ m.job_skill = js := by
  intro l
  induction l with
  | nil => rintro best bc ⟨cs, hcs, _⟩; cases hcs
  | cons cs rest ih =>
    intro best bc hex
    by_cases hcs : normalizeSkill t cs = jn
    · rw [msLoop, if_pos hcs]
      exact ⟨⟨js, cs, "exact", 1, t.exactWeight, r, lookupStr t.skillToCategory jc⟩,
        rfl, rfl, rfl, rfl, rfl⟩
    · rw [msLoop, if_neg hcs]
      apply ih
      obtain ⟨cs', hmem, hcs'⟩ := hex
      rcases List.mem_cons.mp hmem with rfl | hmem'
      · exact absurd hcs' hcs
      · exact ⟨cs', hmem', hcs'⟩

theorem msLoop_syn (t : SkillTaxonomy) (js jn jc : String) (r : Bool)
    (hsim : ∀ a b, t.sim a b ≤ 1) (hen : t.enableSynonym = true) :
    ∀ (l : List String) (best : Option SkillMatch) (bc : ℚ),
      bc < 95/100 →
      (∀ cs ∈ l, normalizeSkill t cs ≠ jn) →
      (∃ cs ∈ l, getCanonicalSkill t cs = jc) →
      ∃ m, msLoop t js jn jc r l best bc = some m ∧ m.match_type = "synonym" ∧
        m.confidence = 95/100 ∧ m.weight = t.synonymWeight ∧ m.job_skill = js := by
  intro l
  induction l with
  | nil => rintro best bc _ _ ⟨cs, hcs, _⟩; cases hcs
  | cons cs rest ih =>
    intro best bc hbc hne hsyn
    rw [msLoop, if_neg (hne cs (List.mem_cons_self cs rest))]
    by_cases hcs : getCanonicalSkill t cs = jc
    · rw [strategyStep_syn_triggers t js jn jc cs r best bc hsim hen hcs.symm
        (fun h => hne cs (List.mem_cons_self cs rest) h.symm) hbc]
      refine ⟨⟨js, cs, "synonym", 95/100, t.synonymWeight, r,
        lookupStr t.skillToCategory jc⟩, ?_, rfl, rfl, rfl, rfl⟩
      exact msLoop_locked t js jn jc r hsim rest _
        (fun x hx => hne x (List.mem_cons_of_mem cs hx))
    · have h2 : (strategyStep t js jn jc cs r best bc).2 < 95/100 := by
        unfold strategyStep
        apply catStep_snd_lt
        apply semStep_snd_lt _ _ _ _ _ _ hsim
        rw [synStep_keep t js jn jc cs r _ (fun h => hcs h.symm)]
        exact hbc
      obtain ⟨cs', hmem, hc'⟩ := hsyn
      have hmem' : cs' ∈ rest := by
        rcases List.mem_cons.mp hmem with rfl | hmem'
        · exact absurd hc' hcs
        · exact hmem'
      exact ih _ _ h2 (fun x hx => hne x (List.mem_cons_of_mem cs hx)) ⟨cs', hmem', hc'⟩

/-- C4 amended: an exact normalized match always returns type `"exact"` with
confidence 1.0, short-circuiting the other strategies; and when no candidate
skill matches the job skill's normalized form but some candidate skill
resolves to the same canonical skill (synonym matching enabled), the result
is a `"synonym"` match with confidence 0.95 — the synonym condition is on the
normalized forms, not the raw strings. -/
theorem c4_exact_and_synonym (t : SkillTaxonomy) (js : String)
    (cands : List String) (r : Bool) (hsim : ∀ a b, t.sim a b ≤ 1) :
    ((∃ cs ∈ cands, normalizeSkill t cs = normalizeSkill t js) →
      ∃ m, matchSingleSkill t js cands r = some m ∧
        m.match_type = "exact" ∧ m.confidence = 1) ∧
    (t.enableSynonym = true →
      (∀ cs ∈ cands, normalizeSkill t cs ≠ normalizeSkill t js) →
      (∃ cs ∈ cands, getCanonicalSkill t cs = getCanonicalSkill t js) →
      ∃ m, matchSingleSkill t js cands r = some m ∧
        m.match_type = "synonym" ∧ m.confidence = 95/100) := by
  constructor
  · intro hex
    obtain ⟨m, hm, hty, hconf, _, _⟩ :=
      msLoop_exact t js (normalizeSkill t js) (getCanonicalSkill t js) r cands none 0 hex
    exact ⟨m, hm, hty, hconf⟩
  · intro hen hne hsyn
    obtain ⟨m, hm, hty, hconf, _, _⟩ :=
      msLoop_syn t js (normalizeSkill t js) (getCanonicalSkill t js) r hsim hen
        cands none 0 (by norm_num) hne hsyn
    exact ⟨m, hm, hty, hconf⟩

/-- A taxonomy with the synonym registration `"js" → "javascript"` (semantic
and category matching off, no embedding model). -/
def c4Tax : SkillTaxonomy :=
  { synonymToCanonical := [("js", "javascript"), ("javascript", "javascript")],
    skillToCategory := [], skillToRelationships := [], exclusions := [],
    exactWeight := 1, synonymWeight := 1, semanticWeight := 9/10,
    categoryWeight := 7/10, enableSynonym := true, enableSemantic := true,
    enableCategory := false, semanticThreshold := 3/4, stripSpecialChars := true,
    hasEmbeddingModel := false, sim := fun _ _ => 0 }

/-- C4 counterexample: job skill `"js"` and candidate skill `"JS"` have
different raw strings and resolve to the same canonical skill
(`"javascript"`) through the synonym taxonomy, yet the match is `"exact"`
with confidence 1.0 (their normalized forms coincide), not `"synonym"` with
0.95 as the claim states. -/
theorem c4_counterexample :
    "js" ≠ "JS" ∧
    getCanonicalSkill c4Tax "js" = "javascript" ∧
    getCanonicalSkill c4Tax "JS" = "javascript" ∧
    (matchSingleSkill c4Tax "js" ["JS"] true).map
      (fun m => (m.match_type, m.confidence)) = some ("exact", 1) ∧
    ¬ (matchSingleSkill c4Tax "js" ["JS"] true).map
      (fun m => (m.match_type, m.confidence)) = some ("synonym", 95/100) := by
  have hnorm : normalizeSkill c4Tax "JS" = "js" := by decide
  have hms : matchSingleSkill c4Tax "js" ["JS"] true =
      some ⟨"js", "JS", "exact", 1, 1, true, none⟩ := by
    unfold matchSingleSkill
    rw [msLoop, if_pos (by decide : normalizeSkill c4Tax "JS" = normalizeSkill c4Tax "js")]
    rfl
  refine ⟨by decide, by decide, by decide, ?_, ?_⟩
  · rw [hms]; rfl
  · rw [hms]
    intro h
    have h2 : (("exact" : String), (1 : ℚ)) = ("synonym", 95/100) := Option.some.inj h
    exact absurd (congrArg Prod.fst h2) (by decide)

/-- C4 witness for the amended statement: `"Python"` vs `"python"` is an
exact match; `"javascript"` vs `"JS"` is a synonym match at 0.95. -/
theorem c4_exact_and_synonym_witness :
    (∃ m, matchSingleSkill c4Tax "python" ["Python"] true = some m ∧
      m.match_type = "exact" ∧ m.confidence = 1) ∧
    (∃ m, matchSingleSkill c4Tax "javascript" ["JS"] true = some m ∧
      m.match_type = "synonym" ∧ m.confidence = 95/100) :=
  ⟨(c4_exact_and_synonym c4Tax "python" ["Python"] true
      (fun _ _ => by norm_num [c4Tax])).1
    ⟨"Python", by simp, by decide⟩,
   (c4_exact_and_synonym c4Tax "javascript" ["JS"] true
      (fun _ _ => by norm_num [c4Tax])).2 rfl
    (by intro cs hcs; simp at hcs; subst hcs; decide)
    ⟨"JS", by simp, by decide⟩⟩

theorem compSkillHit_nil (s : String) : compSkillHit [] s = false := rfl

def c5Job : Job := { required_skills := ["Leadership", "Python", "Excel", "SQL", "Logistics"] }

/-- C5 counterexample: a candidate with no skills against a job requiring 5
skills gets a comprehensive skills *section* score of 38, not 0 — the section
averages the required-skills field (0, weight 2) with the
preferred-skills-unspecified field (100) and the IT-skills field (50). -/
theorem c5_counterexample :
    c5Job.required_skills.length = 5 ∧
    candSkillSet {} = [] ∧
    (assessSkills {} c5Job).total_score = 38 ∧
    (38 : ℤ) ≠ 0 := by
  refine ⟨rfl, rfl, ?_, by decide⟩
  have hset : candSkillSet ({} : Candidate) = [] := rfl
  have hne : ((["Leadership", "Python", "Excel", "SQL", "Logistics"] : List String) = [])
      = False := by simp
  simp only [assessSkills, hset, compSkillHit_nil, c5Job]
  norm_num [hne, sectionScoreZ, itScoreZ, pyInt, pyRound]

/-- C5 amended: a candidate with an empty skill list against a job with a
non-empty required list gets skill-matcher scores of 0 with every required
and preferred skill listed as missing; in the comprehensive scorer the
required-skills field scores 0 with nothing matched, but the skills section
score is 38 (no preferred skills specified) or 12 (preferred present) — in
either case non-zero. -/
theorem c5_empty_skills (t : SkillTaxonomy) (c : Candidate) (j : Job)
    (h1 : c.professional_skills = []) (h2 : c.it_skills = []) (h3 : c.skills = [])
    (hreq : j.required_skills ≠ []) :
    (matchSkills t j.required_skills j.preferred_skills []).required_match_score = 0 ∧
    (matchSkills t j.required_skills j.preferred_skills []).preferred_match_score = 0 ∧
    (matchSkills t j.required_skills j.preferred_skills []).overall_skill_score = 0 ∧
    (matchSkills t j.required_skills j.preferred_skills []).missing_required =
      j.required_skills ∧
    (matchSkills t j.required_skills j.preferred_skills []).missing_preferred =
      j.preferred_skills ∧
    (matchSkills t j.required_skills j.preferred_skills []).matched_required = [] ∧
    (matchSkills t j.required_skills j.preferred_skills []).matched_preferred = [] ∧
    (∃ f, (assessSkills c j).fields.head? = some f ∧ f.field_name = "required_skills" ∧
      f.score = 0 ∧ f.candidate_value = .list ["None matched"]) ∧
    (assessSkills c j).total_score = (if j.preferred_skills = [] then 38 else 12) ∧
    (assessSkills c j).total_score ≠ 0 := by
  have hmatcher : ∀ x, x = (matchSkills t j.required_skills j.preferred_skills []) →
      x.required_match_score = 0 ∧ x.preferred_match_score = 0 ∧
      x.overall_skill_score = 0 ∧ x.missing_required = j.required_skills ∧
      x.missing_preferred = j.preferred_skills ∧ x.matched_required = [] ∧
      x.matched_preferred = [] := by
    intro x hx
    rw [hx]
    unfold matchSkills
    rw [if_pos ⟨rfl, Or.inl (List.length_pos.mpr hreq)⟩]
    exact ⟨rfl, rfl, rfl, rfl, rfl, rfl, rfl⟩
  obtain ⟨m1, m2, m3, m4, m5, m6, m7⟩ := hmatcher _ rfl
  have hhit : ∀ s, compSkillHit (candSkillSet c) s = false := by
    intro s
    have hset : candSkillSet c = [] := by
      unfold candSkillSet
      rw [h1, h2, h3]
      rfl
    rw [hset]
    rfl
  refine ⟨m1, m2, m3, m4, m5, m6, m7, ?_, ?_, ?_⟩
  · simp only [assessSkills, hhit, List.filter_false, h2]
    exact ⟨_, rfl, rfl, by simp [hreq, pyInt], rfl⟩
  · simp only [assessSkills, hhit, List.filter_false, h2]
    by_cases hp : j.preferred_skills = []
    · simp only [hp, if_pos]
      norm_num [hreq, sectionScoreZ, itScoreZ, pyInt, pyRound]
    · rw [if_neg hp]
      norm_num [hreq, hp, sectionScoreZ, itScoreZ, pyInt, pyRound]
  · simp only [assessSkills, hhit, List.filter_false, h2]
    by_cases hp : j.preferred_skills = []
    · norm_num [hp, hreq, sectionScoreZ, itScoreZ, pyInt, pyRound]
    · norm_num [hp, hreq, sectionScoreZ, itScoreZ, pyInt, pyRound]

/-- C5 witness for the amended statement, at the no-skill candidate and the
5-required-skill job. -/
theorem c5_empty_skills_witness :
    (matchSkills exTax c5Job.required_skills c5Job.preferred_skills
      []).required_match_score = 0 ∧
    (matchSkills exTax c5Job.required_skills c5Job.preferred_skills
      []).preferred_match_score = 0 ∧
    (matchSkills exTax c5Job.required_skills c5Job.preferred_skills
      []).overall_skill_score = 0 ∧
    (matchSkills exTax c5Job.required_skills c5Job.preferred_skills
      []).missing_required = c5Job.required_skills ∧
    (matchSkills exTax c5Job.required_skills c5Job.preferred_skills
      []).missing_preferred = c5Job.preferred_skills ∧
    (matchSkills exTax c5Job.required_skills c5Job.preferred_skills
      []).matched_required = [] ∧
    (matchSkills exTax c5Job.required_skills c5Job.preferred_skills
      []).matched_preferred = [] ∧
    (∃ f, (assessSkills {} c5Job).fields.head? = some f ∧
      f.field_name = "required_skills" ∧ f.score = 0 ∧
      f.candidate_value = .list ["None matched"]) ∧
    (assessSkills {} c5Job).total_score =
      (if c5Job.preferred_skills = [] then 38 else 12) ∧
    (assessSkills {} c5Job).total_score ≠ 0 :=
  c5_empty_skills exTax {} c5Job rfl rfl rfl (by simp [c5Job])

/-! C2 infrastructure: range lemmas for every score-producing definition. -/

theorem pyInt_frac_bounds (x y : ℚ) (h0 : 0 ≤ x) (hy : 0 < y) (hxy : x ≤ y) :
    0 ≤ pyInt (x / y * 100) ∧ pyInt (x / y * 100) ≤ 100 := by
  have hr0 : 0 ≤ x / y * 100 := by positivity
  have hr1 : x / y * 100 ≤ 100 := by
    have : x / y ≤ 1 := (div_le_one hy).mpr hxy
    linarith
  exact ⟨pyInt_nonneg _ hr0, pyInt_le_of_le _ 100 hr0 (by exact_mod_cast hr1)⟩

theorem natScoreZ_bounds (p : List String) (n : String) :
    0 ≤ natScoreZ p n ∧ natScoreZ p n ≤ 100 := by
  unfold natScoreZ; split_ifs <;> norm_num

theorem locScoreZ_bounds (a b : String) (p : List String) :
    0 ≤ locScoreZ a b p ∧ locScoreZ a b p ≤ 100 := by
  unfold locScoreZ; split_ifs <;> norm_num

theorem visaScoreZ_bounds (a b : String) : 0 ≤ visaScoreZ a b ∧ visaScoreZ a b ≤ 100 := by
  unfold visaScoreZ; split_ifs <;> norm_num

theorem availScoreZ_bounds (d : ℚ) : 0 ≤ availScoreZ d ∧ availScoreZ d ≤ 100 := by
  unfold availScoreZ; split_ifs <;> norm_num

theorem genderScoreZ_bounds (a b : String) :
    0 ≤ genderScoreZ a b ∧ genderScoreZ a b ≤ 100 := by
  unfold genderScoreZ; split_ifs <;> norm_num

theorem licenseScoreZ_bounds (a : String) :
    0 ≤ licenseScoreZ a ∧ licenseScoreZ a ≤ 100 := by
  unfold licenseScoreZ; split_ifs <;> norm_num

theorem expScoreZ_bounds (a b c : ℚ) : 0 ≤ expScoreZ a b c ∧ expScoreZ a b c ≤ 100 := by
  unfold expScoreZ; split_ifs <;> norm_num

theorem gccScoreZ_bounds (a b : ℚ) : 0 ≤ gccScoreZ a b ∧ gccScoreZ a b ≤ 100 := by
  unfold gccScoreZ; split_ifs <;> norm_num

theorem industryScoreZ_bounds (n : ℕ) (s : String) :
    0 ≤ industryScoreZ n s ∧ industryScoreZ n s ≤ 100 := by
  unfold industryScoreZ; split_ifs <;> norm_num

theorem funcScoreZ_bounds (a b c : String) :
    0 ≤ funcScoreZ a b c ∧ funcScoreZ a b c ≤ 100 := by
  unfold funcScoreZ; split_ifs <;> norm_num

theorem desigScoreZ_bounds (a b : String) :
    0 ≤ desigScoreZ a b ∧ desigScoreZ a b ≤ 100 := by
  unfold desigScoreZ; split_ifs <;> norm_num

theorem eduScoreZ_bounds (a b : String) : 0 ≤ eduScoreZ a b ∧ eduScoreZ a b ≤ 100 := by
  unfold eduScoreZ
  simp only
  split_ifs <;> norm_num

theorem studyRelevanceZ_bounds (l : List String) (s : String) :
    0 ≤ studyRelevanceZ l s ∧ studyRelevanceZ l s ≤ 100 := by
  unfold studyRelevanceZ; split_ifs <;> norm_num

theorem certScoreZ_bounds (n : ℕ) : 0 ≤ certScoreZ n ∧ certScoreZ n ≤ 100 := by
  unfold certScoreZ
  split_ifs
  · constructor
    · apply le_min (by norm_num); positivity
    · exact min_le_left _ _
  · norm_num

theorem itScoreZ_bounds (n : ℕ) : 0 ≤ itScoreZ n ∧ itScoreZ n ≤ 100 := by
  unfold itScoreZ
  split_ifs
  · constructor
    · apply le_min (by norm_num); positivity
    · exact min_le_left _ _
  · norm_num

theorem salaryScoreZ_bounds (a b c : ℚ) :
    0 ≤ salaryScoreZ a b c ∧ salaryScoreZ a b c ≤ 100 := by
  unfold salaryScoreZ; split_ifs <;> norm_num

theorem progScoreZ_bounds (a b : ℚ) : 0 ≤ progScoreZ a b ∧ progScoreZ a b ≤ 100 := by
  unfold progScoreZ
  simp only
  split_ifs <;> norm_num

/-- Bounds on the weighted sums of a field list. -/
theorem wsum_bounds (fs : List FieldA)
    (h : ∀ f ∈ fs, (0 ≤ f.score ∧ f.score ≤ 100) ∧ 0 < f.weight) :
    0 ≤ (fs.map (fun f => f.weight)).sum ∧
    0 ≤ (fs.map (fun f => (f.score : ℚ) * f.weight)).sum ∧
    (fs.map (fun f => (f.score : ℚ) * f.weight)).sum ≤
      100 * (fs.map (fun f => f.weight)).sum := by
  induction fs with
  | nil => simp
  | cons f t ih =>
    obtain ⟨⟨hs0, hs1⟩, hw⟩ := h f (List.mem_cons_self f t)
    obtain ⟨i1, i2, i3⟩ := ih (fun g hg => h g (List.mem_cons_of_mem f hg))
    simp only [List.map_cons, List.sum_cons]
    have hs0' : (0:ℚ) ≤ (f.score : ℚ) := by exact_mod_cast hs0
    have hs1' : (f.score : ℚ) ≤ 100 := by exact_mod_cast hs1
    refine ⟨by linarith, ?_, ?_⟩
    · have := mul_nonneg hs0' (le_of_lt hw)
      linarith
    · have := mul_le_mul_of_nonneg_right hs1' (le_of_lt hw)
      linarith

theorem sectionScoreZ_bounds (fs : List FieldA)
    (h : ∀ f ∈ fs, (0 ≤ f.score ∧ f.score ≤ 100) ∧ 0 < f.weight) :
    0 ≤ sectionScoreZ fs ∧ sectionScoreZ fs ≤ 100 := by
  obtain ⟨hw0, ht0, ht1⟩ := wsum_bounds fs h
  unfold sectionScoreZ
  simp only
  split_ifs with hw
  · have hd0 : 0 ≤ (fs.map (fun f => (f.score : ℚ) * f.weight)).sum /
        (fs.map (fun f => f.weight)).sum := div_nonneg ht0 (le_of_lt hw)
    have hd1 : (fs.map (fun f => (f.score : ℚ) * f.weight)).sum /
        (fs.map (fun f => f.weight)).sum ≤ 100 := by
      rw [div_le_iff hw]; linarith
    exact ⟨pyRound_nonneg _ hd0, pyRound_le_of_le _ 100 (by exact_mod_cast hd1)⟩
  · norm_num

theorem personal_fields_bounds (c : Candidate) (j : Job) :
    ∀ f ∈ (assessPersonalDetails c j).fields,
      (0 ≤ f.score ∧ f.score ≤ 100) ∧ 0 < f.weight := by
  intro f hf
  simp only [assessPersonalDetails, List.mem_cons, List.not_mem_nil, or_false] at hf
  rcases hf with rfl | rfl | rfl | rfl | rfl | rfl
  · exact ⟨natScoreZ_bounds _ _, by norm_num⟩
  · exact ⟨locScoreZ_bounds _ _ _, by norm_num⟩
  · exact ⟨visaScoreZ_bounds _ _, by norm_num⟩
  · exact ⟨availScoreZ_bounds _, by norm_num⟩
  · exact ⟨genderScoreZ_bounds _ _, by norm_num⟩
  · exact ⟨licenseScoreZ_bounds _, by norm_num⟩

theorem experience_fields_bounds (c : Candidate) (j : Job) :
    ∀ f ∈ (assessExperience c j).fields,
      (0 ≤ f.score ∧ f.score ≤ 100) ∧ 0 < f.weight := by
  intro f hf
  simp only [assessExperience, List.mem_cons, List.not_mem_nil, or_false] at hf
  rcases hf with rfl | rfl | rfl | rfl | rfl
  · exact ⟨expScoreZ_bounds _ _ _, by norm_num⟩
  · exact ⟨gccScoreZ_bounds _ _, by norm_num⟩
  · exact ⟨industryScoreZ_bounds _ _, by norm_num⟩
  · exact ⟨funcScoreZ_bounds _ _ _, by norm_num⟩
  · exact ⟨desigScoreZ_bounds _ _, by norm_num⟩

theorem education_fields_bounds (c : Candidate) (j : Job) :
    ∀ f ∈ (assessEducation c j).fields,
      (0 ≤ f.score ∧ f.score ≤ 100) ∧ 0 < f.weight := by
  intro f hf
  by_cases hd : c.education_details ≠ []
  · simp only [assessEducation, if_pos hd, List.singleton_append, List.cons_append,
      List.nil_append, List.mem_cons, List.not_mem_nil, or_false] at hf
    rcases hf with rfl | rfl | rfl
    · exact ⟨eduScoreZ_bounds _ _, by norm_num⟩
    · exact ⟨studyRelevanceZ_bounds _ _, by norm_num⟩
    · exact ⟨certScoreZ_bounds _, by norm_num⟩
  · simp only [assessEducation, if_neg hd, List.singleton_append, List.cons_append,
      List.nil_append, List.mem_cons, List.not_mem_nil, or_false] at hf
    rcases hf with rfl | rfl
    · exact ⟨eduScoreZ_bounds _ _, by norm_num⟩
    · exact ⟨certScoreZ_bounds _, by norm_num⟩

theorem skills_fields_bounds (c : Candidate) (j : Job) :
    ∀ f ∈ (assessSkills c j).fields,
      (0 ≤ f.score ∧ f.score ≤ 100) ∧ 0 < f.weight := by
  intro f hf
  simp only [assessSkills, List.mem_cons, List.not_mem_nil, or_false] at hf
  have hreqb : ∀ req : List String,
      (0 ≤ (if req ≠ [] then
        pyInt ((((req.filter (fun s => compSkillHit (candSkillSet c) s)).length : ℚ) /
          (req.length : ℚ)) * 100) else 100) ∧
      (if req ≠ [] then
        pyInt ((((req.filter (fun s => compSkillHit (candSkillSet c) s)).length : ℚ) /
          (req.length : ℚ)) * 100) else 100) ≤ 100) := by
    intro req
    split_ifs with hr
    · have hlen := List.length_filter_le (fun s => compSkillHit (candSkillSet c) s) req
      have hpos : (0:ℚ) < (req.length : ℚ) := by
        exact_mod_cast List.length_pos.mpr hr
      exact pyInt_frac_bounds _ _ (by positivity) hpos (by exact_mod_cast hlen)
    · norm_num
  rcases hf with rfl | rfl | rfl
  · exact ⟨hreqb j.required_skills, by norm_num⟩
  · exact ⟨hreqb j.preferred_skills, by norm_num⟩
  · exact ⟨itScoreZ_bounds _, by norm_num⟩

theorem salary_fields_bounds (c : Candidate) (j : Job) :
    ∀ f ∈ (assessSalary c j).fields,
      (0 ≤ f.score ∧ f.score ≤ 100) ∧ 0 < f.weight := by
  intro f hf
  by_cases hp : c.current_salary ≠ 0 ∧ c.expected_salary ≠ 0
  · simp only [assessSalary, if_pos hp, List.singleton_append, List.cons_append,
      List.nil_append, List.mem_cons, List.not_mem_nil, or_false] at hf
    rcases hf with rfl | rfl
    · exact ⟨salaryScoreZ_bounds _ _ _, by norm_num⟩
    · exact ⟨progScoreZ_bounds _ _, by norm_num⟩
  · simp only [assessSalary, if_neg hp, List.singleton_append, List.cons_append,
      List.nil_append, List.append_nil, List.mem_cons, List.not_mem_nil, or_false] at hf
    rcases hf with rfl
    exact ⟨salaryScoreZ_bounds _ _ _, by norm_num⟩

theorem assessPersonal_total_bounds (c : Candidate) (j : Job) :
    0 ≤ (assessPersonalDetails c j).total_score ∧
    (assessPersonalDetails c j).total_score ≤ 100 := by
  have heq : (assessPersonalDetails c j).total_score =
      sectionScoreZ (assessPersonalDetails c j).fields := rfl
  rw [heq]
  exact sectionScoreZ_bounds _ (personal_fields_bounds c j)

theorem assessExperience_total_bounds (c : Candidate) (j : Job) :
    0 ≤ (assessExperience c j).total_score ∧ (assessExperience c j).total_score ≤ 100 := by
  have heq : (assessExperience c j).total_score =
      sectionScoreZ (assessExperience c j).fields := rfl
  rw [heq]
  exact sectionScoreZ_bounds _ (experience_fields_bounds c j)

theorem assessEducation_total_bounds (c : Candidate) (j : Job) :
    0 ≤ (assessEducation c j).total_score ∧ (assessEducation c j).total_score ≤ 100 := by
  have heq : (assessEducation c j).total_score =
      sectionScoreZ (assessEducation c j).fields := rfl
  rw [heq]
  exact sectionScoreZ_bounds _ (education_fields_bounds c j)

theorem assessSkills_total_bounds (c : Candidate) (j : Job) :
    0 ≤ (assessSkills c j).total_score ∧ (assessSkills c j).total_score ≤ 100 := by
  have heq : (assessSkills c j).total_score =
      sectionScoreZ (assessSkills c j).fields := rfl
  rw [heq]
  exact sectionScoreZ_bounds _ (skills_fields_bounds c j)

theorem assessSalary_total_bounds (c : Candidate) (j : Job) :
    0 ≤ (assessSalary c j).total_score ∧ (assessSalary c j).total_score ≤ 100 := by
  have heq : (assessSalary c j).total_score =
      sectionScoreZ (assessSalary c j).fields := rfl
  rw [heq]
  exact sectionScoreZ_bounds _ (salary_fields_bounds c j)

theorem min100_bounds (x : ℤ) (hx : 0 ≤ x) :
    0 ≤ min 100 x ∧ min 100 x ≤ 100 :=
  ⟨le_min (by norm_num) hx, min_le_left _ _⟩

theorem pyInt_mix_bounds (a b c d e : ℤ)
    (ha : 0 ≤ a ∧ a ≤ 100) (hb : 0 ≤ b ∧ b ≤ 100) (hc : 0 ≤ c ∧ c ≤ 100)
    (hd : 0 ≤ d ∧ d ≤ 100) (he : 0 ≤ e ∧ e ≤ 100) :
    0 ≤ pyInt ((a:ℚ) * (15/100) + (b:ℚ) * (30/100) + (c:ℚ) * (25/100) +
      (d:ℚ) * (15/100) + (e:ℚ) * (15/100)) ∧
    pyInt ((a:ℚ) * (15/100) + (b:ℚ) * (30/100) + (c:ℚ) * (25/100) +
      (d:ℚ) * (15/100) + (e:ℚ) * (15/100)) ≤ 100 := by
  have ha' : (0:ℚ) ≤ a ∧ (a:ℚ) ≤ 100 := ⟨by exact_mod_cast ha.1, by exact_mod_cast ha.2⟩
  have hb' : (0:ℚ) ≤ b ∧ (b:ℚ) ≤ 100 := ⟨by exact_mod_cast hb.1, by exact_mod_cast hb.2⟩
  have hc' : (0:ℚ) ≤ c ∧ (c:ℚ) ≤ 100 := ⟨by exact_mod_cast hc.1, by exact_mod_cast hc.2⟩
  have hd' : (0:ℚ) ≤ d ∧ (d:ℚ) ≤ 100 := ⟨by exact_mod_cast hd.1, by exact_mod_cast hd.2⟩
  have he' : (0:ℚ) ≤ e ∧ (e:ℚ) ≤ 100 := ⟨by exact_mod_cast he.1, by exact_mod_cast he.2⟩
  constructor
  · apply pyInt_nonneg
    nlinarith [ha'.1, hb'.1, hc'.1, hd'.1, he'.1]
  · apply pyInt_le_of_le
    · nlinarith [ha'.1, hb'.1, hc'.1, hd'.1, he'.1]
    · push_cast
      nlinarith [ha'.2, hb'.2, hc'.2, hd'.2, he'.2]

theorem assessCV_bounds (cv : String) (j : Job) (c : Candidate) :
    (0 ≤ (assessCV cv j c).cv_score ∧ (assessCV cv j c).cv_score ≤ 100) ∧
    (0 ≤ (assessCV cv j c).cv_quality_score ∧
      (assessCV cv j c).cv_quality_score ≤ 100) ∧
    (0 ≤ (assessCV cv j c).content_relevance_score ∧
      (assessCV cv j c).content_relevance_score ≤ 100) ∧
    (0 ≤ (assessCV cv j c).keyword_match_score ∧
      (assessCV cv j c).keyword_match_score ≤ 100) ∧
    (0 ≤ (assessCV cv j c).experience_extraction_score ∧
      (assessCV cv j c).experience_extraction_score ≤ 100) ∧
    (0 ≤ (assessCV cv j c).skills_extraction_score ∧
      (assessCV cv j c).skills_extraction_score ≤ 100) := by
  unfold assessCV
  split_ifs with hshort
  · norm_num
  · dsimp only
    have hquality : ∀ n : ℕ, n ≤ 6 →
        0 ≤ pyInt (((n:ℚ)) / 6 * 100) ∧ pyInt (((n:ℚ)) / 6 * 100) ≤ 100 := by
      intro n hn
      exact pyInt_frac_bounds _ 6 (by positivity) (by norm_num) (by exact_mod_cast hn)
    have hqcount : ((if hasEmail cv.data then (1:ℕ) else 0) +
        (if hasPhone cv.data then 1 else 0) +
        (if strIn "linkedin" (strLower cv) then 1 else 0) +
        (if cvSectionWords.any (fun w => strIn w (strLower cv)) then 1 else 0) +
        (if decide (200 ≤ (pySplit cv).length) then 1 else 0) +
        (if achievementWords.any (fun w => strIn w (strLower cv)) then 1 else 0)) ≤ 6 := by
      split_ifs <;> norm_num
    have hq := hquality _ hqcount
    have hkw : 0 ≤ (if ((((j.required_skills ++ j.preferred_skills ++ j.keywords) ++
          (keyTerms (j.job_description ++ " " ++ j.title)).filter
            (fun t => !commonWords.contains (strLower t))).filter
          (fun k => decide (2 < k.data.length))).map strLower).eraseDups ≠ [] then
          pyInt (((((((j.required_skills ++ j.preferred_skills ++ j.keywords) ++
            (keyTerms (j.job_description ++ " " ++ j.title)).filter
              (fun t => !commonWords.contains (strLower t))).filter
            (fun k => decide (2 < k.data.length))).map strLower).eraseDups.filter
            (fun kw => strIn kw (strLower cv))).length : ℚ) /
            ((max ((((j.required_skills ++ j.preferred_skills ++ j.keywords) ++
              (keyTerms (j.job_description ++ " " ++ j.title)).filter
                (fun t => !commonWords.contains (strLower t))).filter
              (fun k => decide (2 < k.data.length))).map strLower).eraseDups.length 1 : ℕ) : ℚ)
            * 100)
        else 75) ∧ (if ((((j.required_skills ++ j.preferred_skills ++ j.keywords) ++
          (keyTerms (j.job_description ++ " " ++ j.title)).filter
            (fun t => !commonWords.contains (strLower t))).filter
          (fun k => decide (2 < k.data.length))).map strLower).eraseDups ≠ [] then
          pyInt (((((((j.required_skills ++ j.preferred_skills ++ j.keywords) ++
            (keyTerms (j.job_description ++ " " ++ j.title)).filter
              (fun t => !commonWords.contains (strLower t))).filter
            (fun k => decide (2 < k.data.length))).map strLower).eraseDups.filter
            (fun kw => strIn kw (strLower cv))).length : ℚ) /
            ((max ((((j.required_skills ++ j.preferred_skills ++ j.keywords) ++
              (keyTerms (j.job_description ++ " " ++ j.title)).filter
                (fun t => !commonWords.contains (strLower t))).filter
              (fun k => decide (2 < k.data.length))).map strLower).eraseDups.length 1 : ℕ) : ℚ)
            * 100)
        else 75) ≤ 100 := by
      split_ifs with hjk
      · apply pyInt_frac_bounds
        · positivity
        · have : 1 ≤ max ((((j.required_skills ++ j.preferred_skills ++ j.keywords) ++
              (keyTerms (j.job_description ++ " " ++ j.title)).filter
                (fun t => !commonWords.contains (strLower t))).filter
              (fun k => decide (2 < k.data.length))).map strLower).eraseDups.length 1 :=
            le_max_right _ _
          exact_mod_cast lt_of_lt_of_le zero_lt_one this
        · have h1 := List.length_filter_le (fun kw => strIn kw (strLower cv))
            ((((j.required_skills ++ j.preferred_skills ++ j.keywords) ++
              (keyTerms (j.job_description ++ " " ++ j.title)).filter
                (fun t => !commonWords.contains (strLower t))).filter
              (fun k => decide (2 < k.data.length))).map strLower).eraseDups
          have h2 := le_max_left ((((j.required_skills ++ j.preferred_skills ++ j.keywords) ++
              (keyTerms (j.job_description ++ " " ++ j.title)).filter
                (fun t => !commonWords.contains (strLower t))).filter
              (fun k => decide (2 < k.data.length))).map strLower).eraseDups.length 1
          exact_mod_cast le_trans h1 h2
      · norm_num
    have hrel := min100_bounds (50 + (((if strLower j.industry ≠ "" ∧
        strIn (strLower j.industry) (strLower cv) = true then (1:ℕ) else 0) +
        (if strLower j.functional_area ≠ "" ∧
          strIn (strLower j.functional_area) (strLower cv) = true then 1 else 0) +
        (if cvRelevanceTermsA.any (fun t => strIn t (strLower cv)) = true then 1 else 0) +
        (if cvRelevanceTermsB.any (fun t => strIn t (strLower cv)) = true then 1 else 0)
        : ℕ) : ℤ) * 15) (by positivity)
    have hexp := min100_bounds (50 +
      (((if anyPos expPat1At (strLower cv).data then (1:ℕ) else 0) +
        (if anyPos expPat2At (strLower cv).data then 1 else 0) +
        (if anyPos expPat3At (strLower cv).data then 1 else 0) : ℕ) : ℤ) * 20)
      (by positivity)
    have hsk := min100_bounds (50 +
        (if anyPos skillsSecAt (strLower cv).data then (25:ℤ) else 0)
        + min ((bulletCount cv.data : ℤ) * 5) 25)
      (by split_ifs <;> positivity)
    exact ⟨pyInt_mix_bounds _ _ _ _ _ hq hkw hrel hexp hsk, hq, hrel, hkw, hexp, hsk⟩

theorem calcConfidence_bounds (ss : List SectionA) :
    0 ≤ calcConfidence ss ∧ calcConfidence ss ≤ 1 := by
  unfold calcConfidence
  simp only
  have hle : (ss.map (fun s => (s.fields.filter fieldCounted).length)).sum ≤
      (ss.map (fun s => s.fields.length)).sum := by
    apply List.sum_le_sum
    intro s _
    exact List.length_filter_le _ _
  have hd1 : (1:ℚ) ≤ ((max (ss.map (fun s => s.fields.length)).sum 1 : ℕ) : ℚ) := by
    exact_mod_cast le_max_right (ss.map (fun s => s.fields.length)).sum 1
  have hdpos : (0:ℚ) < ((max (ss.map (fun s => s.fields.length)).sum 1 : ℕ) : ℚ) := by
    linarith
  have hcast : (ss.map (fun s => ((s.fields.filter fieldCounted).length : ℚ))).sum
      = (((ss.map (fun s => (s.fields.filter fieldCounted).length)).sum : ℕ) : ℚ) := by
    rw [Nat.cast_list_sum, List.map_map]
    rfl
  have hnum0 : (0:ℚ) ≤
      (ss.map (fun s => ((s.fields.filter fieldCounted).length : ℚ))).sum := by
    rw [hcast]
    positivity
  have hnum : (ss.map (fun s => ((s.fields.filter fieldCounted).length : ℚ))).sum ≤
      ((max (ss.map (fun s => s.fields.length)).sum 1 : ℕ) : ℚ) := by
    rw [hcast]
    exact_mod_cast le_trans hle (le_max_left _ _)
  constructor
  · apply round2_nonneg
    exact div_nonneg hnum0 (le_of_lt hdpos)
  · apply round2_le_of_le_one
    rw [div_le_one hdpos]
    exact hnum

theorem weightFor_pos (s : String) : 0 < weightFor s := by
  unfold weightFor
  split_ifs <;> norm_num

theorem wsumS_bounds (ss : List SectionA)
    (h : ∀ s ∈ ss, 0 ≤ s.total_score ∧ s.total_score ≤ 100) :
    0 ≤ (ss.map (fun s => weightFor s.section_name)).sum ∧
    0 ≤ (ss.map (fun s => (s.total_score : ℚ) * weightFor s.section_name)).sum ∧
    (ss.map (fun s => (s.total_score : ℚ) * weightFor s.section_name)).sum ≤
      100 * (ss.map (fun s => weightFor s.section_name)).sum := by
  induction ss with
  | nil => simp
  | cons s t ih =>
    obtain ⟨hs0, hs1⟩ := h s (List.mem_cons_self s t)
    obtain ⟨i1, i2, i3⟩ := ih (fun g hg => h g (List.mem_cons_of_mem s hg))
    have hw := weightFor_pos s.section_name
    simp only [List.map_cons, List.sum_cons]
    have hs0' : (0:ℚ) ≤ (s.total_score : ℚ) := by exact_mod_cast hs0
    have hs1' : (s.total_score : ℚ) ≤ 100 := by exact_mod_cast hs1
    refine ⟨by linarith, ?_, ?_⟩
    · have := mul_nonneg hs0' (le_of_lt hw)
      linarith
    · have := mul_le_mul_of_nonneg_right hs1' (le_of_lt hw)
      linarith

theorem assess_sections_bounds (c : Candidate) (j : Job) (cv now : String) :
    ∀ s ∈ (assess c j cv now).sections,
      (0 ≤ s.total_score ∧ s.total_score ≤ 100) ∧
      ∀ f ∈ s.fields, 0 ≤ f.score ∧ f.score ≤ 100 := by
  intro s hs
  have hmem : s ∈ [assessPersonalDetails c j, assessExperience c j, assessEducation c j,
      assessSkills c j, assessSalary c j] ++
      (match (if pyOrS cv c.cv_text ≠ "" then
          some (assessCV (pyOrS cv c.cv_text) j c) else none) with
        | some a => [mkCvSection a]
        | none => []) := hs
  by_cases hcv : pyOrS cv c.cv_text ≠ ""
  · rw [if_pos hcv] at hmem
    simp only [List.cons_append, List.nil_append, List.mem_cons,
      List.not_mem_nil, or_false] at hmem
    rcases hmem with rfl | rfl | rfl | rfl | rfl | rfl
    · exact ⟨assessPersonal_total_bounds c j,
        fun f hf => (personal_fields_bounds c j f hf).1⟩
    · exact ⟨assessExperience_total_bounds c j,
        fun f hf => (experience_fields_bounds c j f hf).1⟩
    · exact ⟨assessEducation_total_bounds c j,
        fun f hf => (education_fields_bounds c j f hf).1⟩
    · exact ⟨assessSkills_total_bounds c j,
        fun f hf => (skills_fields_bounds c j f hf).1⟩
    · exact ⟨assessSalary_total_bounds c j,
        fun f hf => (salary_fields_bounds c j f hf).1⟩
    · exact ⟨(assessCV_bounds (pyOrS cv c.cv_text) j c).1, by simp [mkCvSection]⟩
  · rw [if_neg hcv] at hmem
    simp only [List.cons_append, List.nil_append, List.append_nil, List.mem_cons,
      List.not_mem_nil, or_false] at hmem
    rcases hmem with rfl | rfl | rfl | rfl | rfl
    · exact ⟨assessPersonal_total_bounds c j,
        fun f hf => (personal_fields_bounds c j f hf).1⟩
    · exact ⟨assessExperience_total_bounds c j,
        fun f hf => (experience_fields_bounds c j f hf).1⟩
    · exact ⟨assessEducation_total_bounds c j,
        fun f hf => (education_fields_bounds c j f hf).1⟩
    · exact ⟨assessSkills_total_bounds c j,
        fun f hf => (skills_fields_bounds c j f hf).1⟩
    · exact ⟨assessSalary_total_bounds c j,
        fun f hf => (salary_fields_bounds c j f hf).1⟩

theorem assess_total_bounds (c : Candidate) (j : Job) (cv now : String) :
    0 ≤ (assess c j cv now).total_score ∧ (assess c j cv now).total_score ≤ 100 := by
  have heq : (assess c j cv now).total_score =
      (if 0 < ((assess c j cv now).sections.map (fun s => weightFor s.section_name)).sum
       then pyRound
         (((assess c j cv now).sections.map
           (fun s => (s.total_score : ℚ) * weightFor s.section_name)).sum /
          ((assess c j cv now).sections.map (fun s => weightFor s.section_name)).sum)
       else 0) := rfl
  obtain ⟨hw0, ht0, ht1⟩ := wsumS_bounds (assess c j cv now).sections
    (fun s hs => (assess_sections_bounds c j cv now s hs).1)
  rw [heq]
  split_ifs with hw
  · have hd0 : 0 ≤ ((assess c j cv now).sections.map
        (fun s => (s.total_score : ℚ) * weightFor s.section_name)).sum /
        ((assess c j cv now).sections.map (fun s => weightFor s.section_name)).sum :=
      div_nonneg ht0 (le_of_lt hw)
    have hd1 : ((assess c j cv now).sections.map
        (fun s => (s.total_score : ℚ) * weightFor s.section_name)).sum /
        ((assess c j cv now).sections.map (fun s => weightFor s.section_name)).sum ≤ 100 := by
      rw [div_le_iff hw]
      linarith
    exact ⟨pyRound_nonneg _ hd0, pyRound_le_of_le _ 100 (by exact_mod_cast hd1)⟩
  · norm_num

theorem assess_confidence_bounds (c : Candidate) (j : Job) (cv now : String) :
    0 ≤ (assess c j cv now).confidence_score ∧
    (assess c j cv now).confidence_score ≤ 1 := by
  have heq : (assess c j cv now).confidence_score =
      calcConfidence (assess c j cv now).sections := rfl
  rw [heq]
  exact calcConfidence_bounds _

theorem assess_cv_bounds (c : Candidate) (j : Job) (cv now : String) :
    ∀ a, (assess c j cv now).cv_assessment = some a →
      (0 ≤ a.cv_score ∧ a.cv_score ≤ 100) ∧
      (0 ≤ a.cv_quality_score ∧ a.cv_quality_score ≤ 100) ∧
      (0 ≤ a.content_relevance_score ∧ a.content_relevance_score ≤ 100) ∧
      (0 ≤ a.keyword_match_score ∧ a.keyword_match_score ≤ 100) ∧
      (0 ≤ a.experience_extraction_score ∧ a.experience_extraction_score ≤ 100) ∧
      (0 ≤ a.skills_extraction_score ∧ a.skills_extraction_score ≤ 100) := by
  intro a ha
  have heq : (assess c j cv now).cv_assessment =
      (if pyOrS cv c.cv_text ≠ "" then some (assessCV (pyOrS cv c.cv_text) j c)
       else none) := rfl
  rw [heq] at ha
  split_ifs at ha
  injection ha with h
  subst h
  exact assessCV_bounds _ j c

/-- Confidence in `[0,1]` and applied weight in `[0,1]`. -/
def skillMatchBounded (m : SkillMatch) : Prop :=
  0 ≤ m.confidence ∧ m.confidence ≤ 1 ∧ 0 ≤ m.weight ∧ m.weight ≤ 1

/-- All four `match_type_weights` lie in `[0,1]` (spec: configuration weights
scale the per-skill contribution of a match). -/
def weightsBounded (t : SkillTaxonomy) : Prop :=
  (0 ≤ t.exactWeight ∧ t.exactWeight ≤ 1) ∧
  (0 ≤ t.synonymWeight ∧ t.synonymWeight ≤ 1) ∧
  (0 ≤ t.semanticWeight ∧ t.semanticWeight ≤ 1) ∧
  (0 ≤ t.categoryWeight ∧ t.categoryWeight ≤ 1)

theorem synStep_Q (t : SkillTaxonomy) (js jn jc cs : String) (r : Bool)
    (st : Option SkillMatch × ℚ) (hw : weightsBounded t)
    (hst : ∀ m, st.1 = some m → skillMatchBounded m) :
    ∀ m, (synStep t js jn jc cs r st).1 = some m → skillMatchBounded m := by
  intro m hm
  unfold synStep at hm
  split_ifs at hm
  · injection hm with h
    subst h
    exact ⟨by norm_num, by norm_num, hw.2.1.1, hw.2.1.2⟩
  · exact hst m hm

theorem semStep_Q (t : SkillTaxonomy) (js jc cs : String) (r : Bool)
    (st : Option SkillMatch × ℚ) (hw : weightsBounded t)
    (hsim : ∀ a b, t.sim a b ≤ 1) (hthr : 0 ≤ t.semanticThreshold)
    (hst : ∀ m, st.1 = some m → skillMatchBounded m) :
    ∀ m, (semStep t js jc cs r st).1 = some m → skillMatchBounded m := by
  intro m hm
  unfold semStep at hm
  simp only at hm
  split_ifs at hm with h
  · injection hm with h2
    subst h2
    have h1 : 0 ≤ semanticSimilarity t js cs := le_trans hthr h.2.1
    have h2 := semanticSimilarity_le_one t js cs hsim
    refine ⟨by positivity, ?_, hw.2.2.1.1, hw.2.2.1.2⟩
    have h3 : semanticSimilarity t js cs * (85/100) ≤ 1 * (85/100) :=
      mul_le_mul_of_nonneg_right h2 (by norm_num)
    show semanticSimilarity t js cs * (85/100) ≤ 1
    linarith
  · exact hst m hm

theorem catStep_Q (t : SkillTaxonomy) (js jc cs : String) (r : Bool)
    (st : Option SkillMatch × ℚ) (hw : weightsBounded t)
    (hst : ∀ m, st.1 = some m → skillMatchBounded m) :
    ∀ m, (catStep t js jc cs r st).1 = some m → skillMatchBounded m := by
  intro m hm
  unfold catStep at hm
  simp only at hm
  split_ifs at hm
  · injection hm with h
    subst h
    exact ⟨by norm_num, by norm_num, hw.2.2.2.1, hw.2.2.2.2⟩
  · exact hst m hm

theorem msLoop_Q (t : SkillTaxonomy) (js jn jc : String) (r : Bool)
    (hw : weightsBounded t) (hsim : ∀ a b, t.sim a b ≤ 1)
    (hthr : 0 ≤ t.semanticThreshold) :
    ∀ (l : List String) (best : Option SkillMatch) (bc : ℚ),
      (∀ m, best = some m → skillMatchBounded m) →
      ∀ m, msLoop t js jn jc r l best bc = some m → skillMatchBounded m := by
  intro l
  induction l with
  | nil => intro best bc hb m hm; exact hb m hm
  | cons cs rest ih =>
    intro best bc hb m hm
    rw [msLoop] at hm
    split_ifs at hm
    · injection hm with h
      subst h
      exact ⟨by norm_num, by norm_num, hw.1.1, hw.1.2⟩
    · exact ih _ _
        (catStep_Q t js jc cs r _ hw
          (semStep_Q t js jc cs r _ hw hsim hthr
            (synStep_Q t js jn jc cs r _ hw hb))) m hm

theorem matchSingleSkill_Q (t : SkillTaxonomy) (js : String) (cands : List String)
    (r : Bool) (hw : weightsBounded t) (hsim : ∀ a b, t.sim a b ≤ 1)
    (hthr : 0 ≤ t.semanticThreshold) :
    ∀ m, matchSingleSkill t js cands r = some m → skillMatchBounded m :=
  msLoop_Q t js _ _ r hw hsim hthr cands none 0 (fun _ h => by cases h)

theorem partitionMatches_Q (t : SkillTaxonomy) (cands : List String) (r : Bool)
    (hw : weightsBounded t) (hsim : ∀ a b, t.sim a b ≤ 1)
    (hthr : 0 ≤ t.semanticThreshold) :
    ∀ l : List String, ∀ m ∈ (partitionMatches t cands r l).1, skillMatchBounded m := by
  intro l
  induction l with
  | nil => intro m hm; cases hm
  | cons js rest ih =>
    intro m hm
    rw [partitionMatches] at hm
    cases hms : matchSingleSkill t js cands r with
    | some m2 =>
      rw [hms] at hm
      rcases List.mem_cons.mp hm with rfl | hm'
      · exact matchSingleSkill_Q t js cands r hw hsim hthr m hms
      · exact ih m hm'
    | none =>
      rw [hms] at hm
      exact ih m hm

theorem sum_cw_bounds (ms : List SkillMatch) (h : ∀ m ∈ ms, skillMatchBounded m) :
    0 ≤ (ms.map (fun m => m.confidence * m.weight)).sum ∧
    (ms.map (fun m => m.confidence * m.weight)).sum ≤ (ms.length : ℚ) := by
  induction ms with
  | nil => simp
  | cons m t ih =>
    obtain ⟨h1, h2, h3, h4⟩ := h m (List.mem_cons_self m t)
    obtain ⟨i1, i2⟩ := ih (fun g hg => h g (List.mem_cons_of_mem m hg))
    simp only [List.map_cons, List.sum_cons, List.length_cons]
    constructor
    · have := mul_nonneg h1 h3
      linarith
    · have hm1 : m.confidence * m.weight ≤ 1 := by nlinarith
      push_cast
      linarith

/-- Skill-matcher score bounds under the taxonomy hypotheses. -/
theorem matchSkills_scores_bounds (t : SkillTaxonomy) (req pref cands : List String)
    (hw : weightsBounded t) (hsim : ∀ a b, t.sim a b ≤ 1)
    (hthr : 0 ≤ t.semanticThreshold) :
    (0 ≤ (matchSkills t req pref cands).required_match_score ∧
      (matchSkills t req pref cands).required_match_score ≤ 100) ∧
    (0 ≤ (matchSkills t req pref cands).preferred_match_score ∧
      (matchSkills t req pref cands).preferred_match_score ≤ 100) ∧
    (0 ≤ (matchSkills t req pref cands).overall_skill_score ∧
      (matchSkills t req pref cands).overall_skill_score ≤ 100) ∧
    (∀ m ∈ (matchSkills t req pref cands).matched_required ++
        (matchSkills t req pref cands).matched_preferred,
      0 ≤ m.confidence ∧ m.confidence ≤ 1) := by
  have hscore : ∀ (l : List String) (r : Bool),
      0 ≤ (if 0 < l.length then
        (((partitionMatches t cands r l).1.map
          (fun m => m.confidence * m.weight)).sum / (l.length : ℚ)) * 100 else 100) ∧
      (if 0 < l.length then
        (((partitionMatches t cands r l).1.map
          (fun m => m.confidence * m.weight)).sum / (l.length : ℚ)) * 100 else 100)
        ≤ 100 := by
    intro l r
    split_ifs with hl
    · obtain ⟨s0, s1⟩ := sum_cw_bounds (partitionMatches t cands r l).1
        (partitionMatches_Q t cands r hw hsim hthr l)
    
      have hlen : ((partitionMatches t cands r l).1.length : ℚ) ≤ (l.length : ℚ) := by
        have := partitionMatches_length t cands r l
        exact_mod_cast by omega
      have hpos : (0:ℚ) < (l.length : ℚ) := by exact_mod_cast hl
      constructor
      · positivity
      · have hs : ((partitionMatches t cands r l).1.map
            (fun m => m.confidence * m.weight)).sum ≤ (l.length : ℚ) :=
          le_trans s1 hlen
        have : ((partitionMatches t cands r l).1.map
            (fun m => m.confidence * m.weight)).sum / (l.length : ℚ) ≤ 1 := by
          rw [div_le_one hpos]
          exact hs
        nlinarith
    · norm_num
  by_cases h : cands = [] ∧ (0 < req.length ∨ 0 < pref.length)
  · have hR : (matchSkills t req pref cands).required_match_score = 0 := by
      simp only [matchSkills]; rw [if_pos h]
    have hP : (matchSkills t req pref cands).preferred_match_score = 0 := by
      simp only [matchSkills]; rw [if_pos h]
    have hO : (matchSkills t req pref cands).overall_skill_score = 0 := by
      simp only [matchSkills]; rw [if_pos h]
    have hMR : (matchSkills t req pref cands).matched_required = [] := by
      simp only [matchSkills]; rw [if_pos h]
    have hMP : (matchSkills t req pref cands).matched_preferred = [] := by
      simp only [matchSkills]; rw [if_pos h]
    rw [hR, hP, hO, hMR, hMP]
    refine ⟨⟨le_refl 0, by norm_num⟩, ⟨le_refl 0, by norm_num⟩, ⟨le_refl 0, by norm_num⟩, ?_⟩
    intro m hm
    simp at hm
  · have hr := hscore req true
    have hp := hscore pref false
    have hR : (matchSkills t req pref cands).required_match_score =
        (if 0 < req.length then
          (((partitionMatches t cands true req).1.map
            (fun m => m.confidence * m.weight)).sum / (req.length : ℚ)) * 100 else 100) := by
      simp only [matchSkills]; rw [if_neg h]
    have hP : (matchSkills t req pref cands).preferred_match_score =
        (if 0 < pref.length then
          (((partitionMatches t cands false pref).1.map
            (fun m => m.confidence * m.weight)).sum / (pref.length : ℚ)) * 100 else 100) := by
      simp only [matchSkills]; rw [if_neg h]
    have hO : (matchSkills t req pref cands).overall_skill_score =
        (if 0 < req.length then
          (((partitionMatches t cands true req).1.map
            (fun m => m.confidence * m.weight)).sum / (req.length : ℚ)) * 100 else 100) * (7/10) +
        (if 0 < pref.length then
          (((partitionMatches t cands false pref).1.map
            (fun m => m.confidence * m.weight)).sum / (pref.length : ℚ)) * 100 else 100) * (3/10) := by
      simp only [matchSkills]; rw [if_neg h]
    have hMR : (matchSkills t req pref cands).matched_required =
        (partitionMatches t cands true req).1 := by
      simp only [matchSkills]; rw [if_neg h]
    have hMP : (matchSkills t req pref cands).matched_preferred =
        (partitionMatches t cands false pref).1 := by
      simp only [matchSkills]; rw [if_neg h]
    rw [hR, hP, hO, hMR, hMP]
    refine ⟨hr, hp, ⟨by linarith [hr.1, hp.1], by linarith [hr.2, hp.2]⟩, ?_⟩
    intro m hm
    rcases List.mem_append.mp hm with hm' | hm'
    · obtain ⟨q1, q2, _, _⟩ := partitionMatches_Q t cands true hw hsim hthr req m hm'
      exact ⟨q1, q2⟩
    · obtain ⟨q1, q2, _, _⟩ := partitionMatches_Q t cands false hw hsim hthr pref m hm'
      exact ⟨q1, q2⟩

theorem analyzeGrowth_scores_bounds (c : Candidate) (j : Job) (cur : ℚ) (year : ℤ) :
    (0 ≤ (analyzeGrowth c j cur year).growth_potential_score ∧
      (analyzeGrowth c j cur year).growth_potential_score ≤ 100) ∧
    (0 ≤ (analyzeGrowth c j cur year).learning_agility ∧
      (analyzeGrowth c j cur year).learning_agility ≤ 100) ∧
    (0 ≤ (analyzeGrowth c j cur year).career_trajectory_score ∧
      (analyzeGrowth c j cur year).career_trajectory_score ≤ 100) ∧
    (0 ≤ (analyzeGrowth c j cur year).skill_acquisition_rate ∧
      (analyzeGrowth c j cur year).skill_acquisition_rate ≤ 100) ∧
    (0 ≤ (analyzeGrowth c j cur year).adaptability_score ∧
      (analyzeGrowth c j cur year).adaptability_score ≤ 100) := by
  obtain ⟨hsa, hsa'⟩ := gcomp_sa_bounds c year
  obtain ⟨hei, hei'⟩ := gcomp_ei_bounds c j
  obtain ⟨hct, hct'⟩ := gcomp_ct_bounds c
  obtain ⟨hcc, hcc'⟩ := gcomp_cc_bounds c
  obtain ⟨had, had'⟩ := gcomp_ad_bounds c j
  have h1 : (analyzeGrowth c j cur year).growth_potential_score =
      round1 ((assessSkillAcquisition c year).score * (25/100) +
        (assessEducationInvestment c j).score * (20/100) +
        (assessCareerTrajectory c).score * (25/100) +
        (assessCertificationsCurrency c).score * (15/100) +
        (assessIndustryAdaptability c j).score * (15/100)) := rfl
  have h2 : (analyzeGrowth c j cur year).learning_agility =
      round1 (((assessSkillAcquisition c year).score +
        (assessIndustryAdaptability c j).score) / 2) := rfl
  have h3 : (analyzeGrowth c j cur year).career_trajectory_score =
      round1 (assessCareerTrajectory c).score := rfl
  have h4 : (analyzeGrowth c j cur year).skill_acquisition_rate =
      round1 (assessSkillAcquisition c year).score := rfl
  have h5 : (analyzeGrowth c j cur year).adaptability_score =
      round1 (assessIndustryAdaptability c j).score := rfl
  rw [h1, h2, h3, h4, h5]
  refine ⟨⟨round1_nonneg _ (by linarith), ?_⟩, ⟨round1_nonneg _ (by linarith), ?_⟩,
    ⟨round1_nonneg _ (by linarith), ?_⟩, ⟨round1_nonneg _ (by linarith), ?_⟩,
    ⟨round1_nonneg _ (by linarith), ?_⟩⟩ <;>
    exact_mod_cast round1_le_of_le _ 100 (by push_cast; linarith)

/-- C2: every score produced by the pipeline lies in `[0,100]` and every
confidence lies in `[0,1]`: the comprehensive assessment's total score,
every section's total score, every field score, the CV sub-scores, the
skill matcher's required/preferred/overall scores, the per-match
confidences, and the five growth-potential scores.  The skill-matcher side
holds under the configured taxonomy's match-type weights lying in `[0,1]`,
a similarity oracle bounded by 1 (cosine similarity) and a nonnegative
semantic threshold, all read from the absent `skills_taxonomy.yaml`. -/
theorem c2_all_scores_in_range (t : SkillTaxonomy) (req pref cands : List String)
    (c : Candidate) (j : Job) (cv now : String) (cur : ℚ) (year : ℤ)
    (hw : weightsBounded t) (hsim : ∀ a b, t.sim a b ≤ 1)
    (hthr : 0 ≤ t.semanticThreshold) :
    (0 ≤ (assess c j cv now).total_score ∧ (assess c j cv now).total_score ≤ 100) ∧
    (∀ s ∈ (assess c j cv now).sections,
      (0 ≤ s.total_score ∧ s.total_score ≤ 100) ∧
      ∀ f ∈ s.fields, 0 ≤ f.score ∧ f.score ≤ 100) ∧
    (0 ≤ (assess c j cv now).confidence_score ∧
      (assess c j cv now).confidence_score ≤ 1) ∧
    (∀ a, (assess c j cv now).cv_assessment = some a →
      (0 ≤ a.cv_score ∧ a.cv_score ≤ 100) ∧
      (0 ≤ a.cv_quality_score ∧ a.cv_quality_score ≤ 100) ∧
      (0 ≤ a.content_relevance_score ∧ a.content_relevance_score ≤ 100) ∧
      (0 ≤ a.keyword_match_score ∧ a.keyword_match_score ≤ 100) ∧
      (0 ≤ a.experience_extraction_score ∧ a.experience_extraction_score ≤ 100) ∧
      (0 ≤ a.skills_extraction_score ∧ a.skills_extraction_score ≤ 100)) ∧
    ((0 ≤ (matchSkills t req pref cands).required_match_score ∧
        (matchSkills t req pref cands).required_match_score ≤ 100) ∧
      (0 ≤ (matchSkills t req pref cands).preferred_match_score ∧
        (matchSkills t req pref cands).preferred_match_score ≤ 100) ∧
      (0 ≤ (matchSkills t req pref cands).overall_skill_score ∧
        (matchSkills t req pref cands).overall_skill_score ≤ 100) ∧
      (∀ m ∈ (matchSkills t req pref cands).matched_required ++
          (matchSkills t req pref cands).matched_preferred,
        0 ≤ m.confidence ∧ m.confidence ≤ 1)) ∧
    ((0 ≤ (analyzeGrowth c j cur year).growth_potential_score ∧
        (analyzeGrowth c j cur year).growth_potential_score ≤ 100) ∧
      (0 ≤ (analyzeGrowth c j cur year).learning_agility ∧
        (analyzeGrowth c j cur year).learning_agility ≤ 100) ∧
      (0 ≤ (analyzeGrowth c j cur year).career_trajectory_score ∧
        (analyzeGrowth c j cur year).career_trajectory_score ≤ 100) ∧
      (0 ≤ (analyzeGrowth c j cur year).skill_acquisition_rate ∧
        (analyzeGrowth c j cur year).skill_acquisition_rate ≤ 100) ∧
      (0 ≤ (analyzeGrowth c j cur year).adaptability_score ∧
        (analyzeGrowth c j cur year).adaptability_score ≤ 100)) :=
  ⟨assess_total_bounds c j cv now, assess_sections_bounds c j cv now,
   assess_confidence_bounds c j cv now, assess_cv_bounds c j cv now,
   matchSkills_scores_bounds t req pref cands hw hsim hthr,
   analyzeGrowth_scores_bounds c j cur year⟩

/-- C2 witness at a concrete taxonomy, candidate and job. -/
theorem c2_all_scores_in_range_witness :
    weightsBounded exTax ∧
    (0 ≤ (assess {} {} "" "t").total_score ∧ (assess {} {} "" "t").total_score ≤ 100) ∧
    (0 ≤ (matchSkills exTax ["python"] [] ["java"]).overall_skill_score ∧
      (matchSkills exTax ["python"] [] ["java"]).overall_skill_score ≤ 100) ∧
    (0 ≤ (analyzeGrowth {} {} 0 2026).growth_potential_score ∧
      (analyzeGrowth {} {} 0 2026).growth_potential_score ≤ 100) := by
  have h := c2_all_scores_in_range exTax ["python"] [] ["java"] {} {} "" "t" 0 2026
    (by norm_num [weightsBounded, exTax]) (fun a b => by norm_num [exTax])
    (by norm_num [exTax])
  exact ⟨by norm_num [weightsBounded, exTax], h.1, h.2.2.2.2.1.2.2.1, h.2.2.2.2.2.1⟩
